import Mathlib

/-!
Verification development for the fts fine-time-synchronization core.

The definitions below are a shallow embedding of the C sources:

* `clock_unwrap` — src/components/clock/clock.c, counter unwrapping;
* `crm_*`, `perform_regression`, `crm_process_ftm_report` —
  src/components/crm/crm.c, the Clock Relationship Model (double
  arithmetic is modelled exactly over ℚ, C casts double→int64 by
  `ratTrunc`, truncation toward zero);
* `dtc_*` — src/components/dtc/dtc.c, the Disciplined Timer Controller
  (unsigned 64-bit intermediate arithmetic is modelled by `u64`/`i64`);
* `Dtr`, `DTR_tez_critical`, `DTR_tez_handler`, `dtr_start_timer_model`,
  `s_catch_mac_clock_transition_model`,
  `s_refine_mac_clock_timer_start_offset_model` —
  src/components/dtr/dtr.c, the Disciplined Timer Realtime ISR
  and the MAC-clock/timer offset measurement.

Machine integers are modelled by ℤ (int64_t), ℕ (unsigned), with the
conversions that matter made explicit (`u64`, `i64`, `i32`, `% 2^32`).
`DTR_MIN_PERIOD_TICKS` comes from Kconfig values that are not part of
the repository, so it is a parameter (`minP`) of the DTR definitions.
The C `while (period_ticks < DTR_MIN_PERIOD_TICKS)` loop is written
with an explicit iteration budget (`rollForwardFuel`); the budget is
provably never exhausted whenever the C loop terminates at all
(`rollForwardFuel_spec`), and the one situation where the C loop would
spin forever (zero period increment requested) is mapped to `none`.
-/

/-! ## Models of C integer conversions -/

/-- Truncation toward zero, the semantics of a C cast from double to a
signed integer type (the doubles themselves are modelled exactly by ℚ). -/
def ratTrunc (q : ℚ) : ℤ := if 0 ≤ q then ⌊q⌋ else ⌈q⌉

/-- Value of an integer reinterpreted as a C uint64_t. -/
def u64 (x : ℤ) : ℤ := x % (2 : ℤ) ^ 64

/-- Value of an integer reinterpreted (mod 2^64) as a C int64_t. -/
def i64 (x : ℤ) : ℤ := if u64 x < (2 : ℤ) ^ 63 then u64 x else u64 x - (2 : ℤ) ^ 64

/-- Value of an integer reinterpreted (mod 2^32) as a C int32_t. -/
def i32 (x : ℤ) : ℤ :=
  if x % (2 : ℤ) ^ 32 < (2 : ℤ) ^ 31 then x % (2 : ℤ) ^ 32 else x % (2 : ℤ) ^ 32 - (2 : ℤ) ^ 32

/-! ## Counter unwrapping (src/components/clock/clock.c) -/

/-- Model of `unwrap_state_t` from clock.h.  `last_val` and `offset` are int64_t;
`wrap_value` and `wrap_value2` are uint64_t, modelled here by their
int64_t views (all values used by the program are far below 2^63).
`wrap_count` is a uint32_t that is only ever incremented. -/
structure UnwrapState where
  last_val : ℤ
  offset : ℤ
  wrap_count : ℕ
  wrap_value : ℤ
  wrap_value2 : ℤ
deriving Repr, DecidableEq

/-- Model of `clock_unwrap` from clock.c: detect a wrap when the new raw value is
strictly below the previous one (and the previous one is not the
`last_val == 0` sentinel), add `wrap_value2` if `wrap_value2 > 0` and the
previous value was below it, otherwise add `wrap_value`; store the raw
value and return `raw + offset`. -/
def clock_unwrap (val : ℤ) (s : UnwrapState) : ℤ × UnwrapState :=
  let s1 :=
    if s.last_val ≠ 0 ∧ val < s.last_val then
      { s with
        wrap_count := s.wrap_count + 1,
        offset := s.offset +
          (if 0 < s.wrap_value2 ∧ s.last_val < s.wrap_value2 then s.wrap_value2
           else s.wrap_value) }
    else s
  let s2 := { s1 with last_val := val }
  (val + s2.offset, s2)

/-- Outputs of successive `clock_unwrap` calls on the same state. -/
def clock_unwrap_run (s : UnwrapState) : List ℤ → List ℤ
  | [] => []
  | v :: vs => (clock_unwrap v s).1 :: clock_unwrap_run (clock_unwrap v s).2 vs

/-- A freshly initialised unwrap state with `wrap_value = 2^48` and the
given secondary modulus, as used for the t1/t4 FTM timestamps. -/
def unwrap_fresh_48 (w2 : ℤ) : UnwrapState :=
  { last_val := 0, offset := 0, wrap_count := 0, wrap_value := 2 ^ 48, wrap_value2 := w2 }

/-! ## CRM — Clock Relationship Model (src/components/crm/crm.c) -/

def FTM_FRAMES_PER_SESSION : ℕ := 64

def MAX_REGRESSION_SAMPLES : ℕ := 2 * FTM_FRAMES_PER_SESSION

def MIN_REGRESSION_SAMPLES : ℕ := FTM_FRAMES_PER_SESSION / 2

def CRM_R_SQUARED_THRESHOLD : ℚ := 999 / 1000

/-- The sample ring from crm.c: two arrays of `MAX_REGRESSION_SAMPLES`
int64_t picosecond values plus `count` and circular `head`. -/
structure CrmSamples where
  local_ps : List ℤ
  remote_ps : List ℤ
  count : ℕ
  head : ℕ
deriving Repr, DecidableEq

/-- The published CRM model: the globals `crm_valid`, `crm_slope_lr_m1`,
`crm_slope_rl_m1`, `crm_local_ref_ps`, `crm_remote_ref_ps` of crm.c plus
the internal `s_r_squared` (doubles modelled exactly over ℚ; the
`s_residual_std_ns` diagnostic, which involves a square root and is not
referenced by any claim, is omitted). -/
structure CrmModel where
  valid : Bool
  slope_lr_m1 : ℚ
  slope_rl_m1 : ℚ
  local_ref_ps : ℤ
  remote_ref_ps : ℤ
  r_squared : ℚ
deriving Repr, DecidableEq

/-- State after `crm_init`: zeroed ring. -/
def crm_empty_samples : CrmSamples :=
  { local_ps := List.replicate MAX_REGRESSION_SAMPLES 0,
    remote_ps := List.replicate MAX_REGRESSION_SAMPLES 0,
    count := 0, head := 0 }

/-- State after `crm_init`: invalid model, zero slopes and references. -/
def crm_init_model : CrmModel :=
  { valid := false, slope_lr_m1 := 0, slope_rl_m1 := 0,
    local_ref_ps := 0, remote_ref_ps := 0, r_squared := 0 }

/-- Model of `add_regression_sample` from crm.c: append while `count` is below
`MAX_REGRESSION_SAMPLES`, afterwards overwrite at `head` and advance
`head` circularly. -/
def add_regression_sample (r : CrmSamples) (lp rp : ℤ) : CrmSamples :=
  if r.count < MAX_REGRESSION_SAMPLES then
    { r with
      local_ps := r.local_ps.set r.count lp,
      remote_ps := r.remote_ps.set r.count rp,
      count := r.count + 1 }
  else
    { r with
      local_ps := r.local_ps.set r.head lp,
      remote_ps := r.remote_ps.set r.head rp,
      head := (r.head + 1) % MAX_REGRESSION_SAMPLES }

/-- The `remote_ps[0..count)` values the regression loops iterate over. -/
def crm_xs (r : CrmSamples) : List ℤ := r.remote_ps.take r.count

/-- The `local_ps[0..count)` values the regression loops iterate over. -/
def crm_ys (r : CrmSamples) : List ℤ := r.local_ps.take r.count

/-- Reference `ref_x = remote_ps[0]` (first-sample reference for stability). -/
def crm_ref_x (r : CrmSamples) : ℤ := (crm_xs r).headD 0

/-- Reference `ref_y = local_ps[0]`. -/
def crm_ref_y (r : CrmSamples) : ℤ := (crm_ys r).headD 0

/-- Mean `mean_x = ref_x + mean_dx` with `mean_dx = (Σ (remote_i − ref_x)) / n`. -/
def crm_mean_x (r : CrmSamples) : ℚ :=
  (crm_ref_x r : ℚ) +
    ((crm_xs r).map (fun v => ((v - crm_ref_x r : ℤ) : ℚ))).sum / (r.count : ℚ)

/-- Mean `mean_y = ref_y + mean_dy` with `mean_dy = (Σ (local_i − ref_y)) / n`. -/
def crm_mean_y (r : CrmSamples) : ℚ :=
  (crm_ref_y r : ℚ) +
    ((crm_ys r).map (fun v => ((v - crm_ref_y r : ℤ) : ℚ))).sum / (r.count : ℚ)

/-- Covariance sum `num = Σ (remote_i − mean_x) · (local_i − mean_y)`. -/
def crm_num (r : CrmSamples) : ℚ :=
  (List.zipWith (fun (x y : ℤ) => ((x : ℚ) - crm_mean_x r) * ((y : ℚ) - crm_mean_y r))
    (crm_xs r) (crm_ys r)).sum

/-- Variance sum `den = Σ (remote_i − mean_x)²`. -/
def crm_den (r : CrmSamples) : ℚ :=
  ((crm_xs r).map (fun (x : ℤ) => ((x : ℚ) - crm_mean_x r) * ((x : ℚ) - crm_mean_x r))).sum

/-- Slope `crm_slope_lr_m1 = (num − den) / den`. -/
def crm_slope_lr_m1_of (r : CrmSamples) : ℚ := (crm_num r - crm_den r) / crm_den r

/-- Slope `crm_slope_rl_m1 = (den − num) / num`. -/
def crm_slope_rl_m1_of (r : CrmSamples) : ℚ := (crm_den r - crm_num r) / crm_num r

/-- Centroid reference `t_ref_local_ps = (int64_t) mean_y`. -/
def crm_t_ref_local (r : CrmSamples) : ℤ := ratTrunc (crm_mean_y r)

/-- Centroid reference `t_ref_remote_ps = (int64_t) mean_x`. -/
def crm_t_ref_remote (r : CrmSamples) : ℤ := ratTrunc (crm_mean_x r)

/-- Residual sum of squares under the fitted line in minus-one form:
`y_pred = t_ref_local + Δremote + Δremote · slope_lr_m1`. -/
def crm_ss_res (r : CrmSamples) : ℚ :=
  (List.zipWith (fun (x y : ℤ) =>
      ((y : ℚ) - ((crm_t_ref_local r : ℚ) + ((x : ℚ) - (crm_t_ref_remote r : ℚ)) +
        ((x : ℚ) - (crm_t_ref_remote r : ℚ)) * crm_slope_lr_m1_of r)) *
      ((y : ℚ) - ((crm_t_ref_local r : ℚ) + ((x : ℚ) - (crm_t_ref_remote r : ℚ)) +
        ((x : ℚ) - (crm_t_ref_remote r : ℚ)) * crm_slope_lr_m1_of r)))
    (crm_xs r) (crm_ys r)).sum

/-- Total sum of squares about `mean_y`. -/
def crm_ss_tot (r : CrmSamples) : ℚ :=
  ((crm_ys r).map
    (fun (y : ℤ) => ((y : ℚ) - crm_mean_y r) * ((y : ℚ) - crm_mean_y r))).sum

/-- Quality `r_squared = 1 − ss_res/ss_tot` when `ss_tot > 0`, else 0. -/
def crm_r_squared (r : CrmSamples) : ℚ :=
  if 0 < crm_ss_tot r then 1 - crm_ss_res r / crm_ss_tot r else 0

/-- The model published by a successful `perform_regression`. -/
def crm_fit_model (r : CrmSamples) : CrmModel :=
  { valid := decide (CRM_R_SQUARED_THRESHOLD < crm_r_squared r),
    slope_lr_m1 := crm_slope_lr_m1_of r,
    slope_rl_m1 := crm_slope_rl_m1_of r,
    local_ref_ps := crm_t_ref_local r,
    remote_ref_ps := crm_t_ref_remote r,
    r_squared := crm_r_squared r }

/-- Model of `perform_regression` from crm.c: abort (returning `false` and leaving
the published model untouched) when `count < MIN_REGRESSION_SAMPLES` or
when `den == 0 || num == 0`; otherwise publish the fit and return `true`. -/
def perform_regression (r : CrmSamples) (m : CrmModel) : CrmModel × Bool :=
  if r.count < MIN_REGRESSION_SAMPLES then (m, false)
  else if crm_den r = 0 ∨ crm_num r = 0 then (m, false)
  else (crm_fit_model r, true)

/-- Sample derivation from one FTM entry `(t1, t2, t3, t4)`:
`rtt = (t4 − t1) − (t3 − t2)` and the pair
`(local_at_t2, remote_at_t2) = (t2, t1 + rtt/2)` (int64 division). -/
def crm_sample_of_entry (e : ℤ × ℤ × ℤ × ℤ) : ℤ × ℤ :=
  ((e.2.1), e.1 + ((e.2.2.2 - e.1) - (e.2.2.1 - e.2.1)).tdiv 2)

/-- Model of `crm_process_ftm_report` from crm.c: return unchanged on an empty
report, otherwise append all derived samples to the ring, run the
regression and report, in the Bool component, whether it succeeded —
which is exactly the condition under which a registered callback is
invoked. -/
def crm_process_ftm_report (ring : CrmSamples) (m : CrmModel)
    (entries : List (ℤ × ℤ × ℤ × ℤ)) : CrmSamples × CrmModel × Bool :=
  if entries.length = 0 then (ring, m, false)
  else
    let ring1 := entries.foldl
      (fun rg e => add_regression_sample rg (crm_sample_of_entry e).1 (crm_sample_of_entry e).2)
      ring
    ((ring1), (perform_regression ring1 m).1, (perform_regression ring1 m).2)

/-! ## DTC — Disciplined Timer Controller (src/components/dtc/dtc.c) -/

def DTR_TIMER_RESOLUTION_HZ : ℤ := 40000000

def TIMER_TICKS_PER_US : ℤ := DTR_TIMER_RESOLUTION_HZ / 1000000

def DTR_TIMER_PERIOD_US : ℤ := 500

def DTR_TIMER_PERIOD_TICKS : ℤ := DTR_TIMER_PERIOD_US * TIMER_TICKS_PER_US

def DTR_PS_PER_TICK : ℤ := 1000000000000 / DTR_TIMER_RESOLUTION_HZ

def DTR_COMPENSATION_NS : ℤ := -200

/-- The `DTR_NS_TO_TICKS` macro (int64 arithmetic truncates toward zero). -/
def DTR_NS_TO_TICKS (ns : ℤ) : ℤ := (ns * TIMER_TICKS_PER_US).tdiv 1000

/-- Step 3 of `dtc_crm_updated`: `crm_*_ref_ps / DTR_PS_PER_TICK`.  The
divisor macro has type unsigned long long, so C performs the division in
uint64_t. -/
def dtc_ps_to_ticks (ps : ℤ) : ℤ := i64 (u64 ps / DTR_PS_PER_TICK)

/-- Model of `dtc_local_to_remote` from dtc.c (slide 16 projection). -/
def dtc_local_to_remote (slope_rl : ℚ) (local_ticks refL refR : ℤ) : ℤ :=
  refR + ((local_ticks - refL) + ratTrunc (((local_ticks - refL : ℤ) : ℚ) * slope_rl))

/-- Model of `dtc_remote_to_local` from dtc.c (slide 18 projection). -/
def dtc_remote_to_local (slope_lr : ℚ) (remote_ticks refL refR : ℤ) : ℤ :=
  refL + ((remote_ticks - refR) + ratTrunc (((remote_ticks - refR : ℤ) : ℚ) * slope_lr))

/-- Model of `dtc_calculate_period_fp16` from dtc.c. -/
def dtc_calculate_period_fp16 (slope_lr : ℚ) : ℤ :=
  ratTrunc (((DTR_TIMER_PERIOD_TICKS * 65536 : ℤ) : ℚ) +
    ((DTR_TIMER_PERIOD_TICKS * 65536 : ℤ) : ℚ) * slope_lr)

/-- Step 5 of `dtc_crm_updated`:
`(remote_ticks + PERIOD/2) / PERIOD + 2`, computed in uint64_t because
the period macro is unsigned, then stored into an int64_t. -/
def dtc_aligned_cycle (remote_ticks : ℤ) : ℤ :=
  i64 (u64 (remote_ticks + DTR_TIMER_PERIOD_TICKS / 2) / DTR_TIMER_PERIOD_TICKS + 2)

/-- Step 5 continued, `aligned_remote_ticks = aligned_cycle_counter * PERIOD` (uint64_t
product stored into int64_t). -/
def dtc_aligned_remote_ticks (cyc : ℤ) : ℤ := i64 (u64 cyc * DTR_TIMER_PERIOD_TICKS)

/-- Steps 4–8 of `dtc_crm_updated`, with the CRM references already
converted to ticks: project the sampled `timer_base_ticks` to the remote
timebase, round to the next aligned cycle plus 2, project back, apply the
compensation constant, and compute the dithered base period.  Returns
`(aligned_cycle_counter, aligned_local_ticks, aligned_base_period_fp16)`. -/
def dtc_crm_updated_core (slope_lr slope_rl : ℚ) (refL refR timer_base : ℤ) :
    ℤ × ℤ × ℤ :=
  (dtc_aligned_cycle (dtc_local_to_remote slope_rl timer_base refL refR),
   dtc_remote_to_local slope_lr
      (dtc_aligned_remote_ticks
        (dtc_aligned_cycle (dtc_local_to_remote slope_rl timer_base refL refR)))
      refL refR
     + DTR_NS_TO_TICKS DTR_COMPENSATION_NS,
   dtc_calculate_period_fp16 slope_lr)

/-- Steps 3–8 of `dtc_crm_updated` on a published CRM model. -/
def dtc_crm_updated_compute (m : CrmModel) (timer_base : ℤ) : ℤ × ℤ × ℤ :=
  dtc_crm_updated_core m.slope_lr_m1 m.slope_rl_m1
    (dtc_ps_to_ticks m.local_ref_ps) (dtc_ps_to_ticks m.remote_ref_ps) timer_base

/-! ## DTR — Disciplined Timer Realtime (src/components/dtr/dtr.c) -/

inductive DtrRunState
  | notStarted
  | running
  | aligned
deriving Repr, DecidableEq

/-- Model of `align_request_t` from dtr.c. -/
structure DtrAlignRequest where
  pending : Bool
  aligned_local_ticks : ℤ
  aligned_cycle_counter : ℤ
  aligned_base_period_fp16 : ℤ
deriving Repr, DecidableEq

/-- Model of `align_feedback_t` from dtr.h (the two delta fields are int32_t). -/
structure DtrAlignFeedback where
  ready : Bool
  cycle_counter : ℤ
  cycle_delta : ℤ
  period_ticks : ℤ
  period_ticks_delta : ℤ
deriving Repr, DecidableEq

/-- The module-level DTR state of dtr.c that the TEZ ISR manipulates
under its spinlock.  `active_period_ticks` and `shadow_period_ticks` are
uint16_t, `base_period_fp16` is uint32_t. -/
structure Dtr where
  state : DtrRunState
  cycle_counter : ℤ
  timer_base_ticks : ℤ
  active_period_ticks : ℕ
  shadow_period_ticks : ℕ
  period_ticks : ℤ
  base_period_fp16 : ℕ
  period_ticks_frac_acc : ℤ
  align_request : DtrAlignRequest
  align_feedback : DtrAlignFeedback
deriving Repr, DecidableEq

/-- One advance of the fractional-period dithering: add the integer part
of `base` (a uint32_t fixed-point period, 1/65536 tick units) to the
running period, accumulate the fractional part, and carry once the
accumulator reaches one full tick.  This is the loop body at dtr.c lines
100–112 and, with a zero starting period, also the recalculation at
lines 132–141. -/
def ditherStep (base : ℕ) (pa : ℤ × ℤ) : ℤ × ℤ :=
  if 65536 ≤ pa.2 + ((base % 65536 : ℕ) : ℤ) then
    (pa.1 + ((base / 65536 : ℕ) : ℤ) + 1, pa.2 + ((base % 65536 : ℕ) : ℤ) - 65536)
  else
    (pa.1 + ((base / 65536 : ℕ) : ℤ), pa.2 + ((base % 65536 : ℕ) : ℤ))

/-- The dithering iterated `k` times from period `p` with a zeroed
fractional accumulator. -/
def ditherIter (base : ℕ) (p : ℤ) (k : ℕ) : ℤ × ℤ := (ditherStep base)^[k] (p, 0)

/-- The roll-forward loop of the TEZ handler
(`while (period_ticks < DTR_MIN_PERIOD_TICKS) { … }`), written with an
explicit iteration budget so that it is total; the handler passes a
budget that is provably never exhausted (see `rollForwardFuel_spec`).
The state triple is `(period_ticks, period_ticks_frac_acc,
cycle_counter)`. -/
def rollForwardFuel (minP : ℤ) (base : ℕ) : ℕ → ℤ × ℤ × ℤ → ℤ × ℤ × ℤ
  | 0, pac => pac
  | fuel + 1, pac =>
    if pac.1 < minP then
      rollForwardFuel minP base fuel
        ((ditherStep base (pac.1, pac.2.1)).1, (ditherStep base (pac.1, pac.2.1)).2,
          pac.2.2 + 1)
    else pac

/-- Iteration budget passed by the handler: one more than the integer
distance, in 1/65536-tick units, from the current period to the minimum
period.  Each loop iteration closes that distance by exactly
`base ≥ 1` units, so the budget is never exhausted. -/
def rollForwardFuelFor (minP p acc : ℤ) : ℕ := (65536 * (minP - p) - acc).toNat + 1

/-- The requested jump period `aligned_local_ticks − timer_base_ticks`
as computed inside the TEZ handler (after `timer_base_ticks` has been
advanced by the period that just elapsed). -/
def dtrReqPeriod (s : Dtr) : ℤ :=
  s.align_request.aligned_local_ticks - (s.timer_base_ticks + (s.active_period_ticks : ℤ))

/-- The requested base period after the implicit int64_t → uint32_t
conversion in `base_period_fp16 = s_align_request.aligned_base_period_fp16`. -/
def dtrReqBase (s : Dtr) : ℕ := (s.align_request.aligned_base_period_fp16 % (2 : ℤ) ^ 32).toNat

/-- The part of `dtr_tez_handler` that runs under the ISR spinlock
(dtr.c lines 81–144): advance `cycle_counter`, account the elapsed
period into `timer_base_ticks`, latch the shadow period; then either
apply a pending alignment request (including the roll-forward loop and
the feedback publication, with the `assert(!s_align_feedback.ready)`
failure and a non-terminating roll-forward both mapped to `none`) or
perform one step of fractional-period dithering. -/
def DTR_tez_critical (minP : ℤ) (s : Dtr) : Option Dtr :=
  if s.align_request.pending then
    if dtrReqPeriod s < minP ∧ dtrReqBase s = 0 then none
    else if s.align_feedback.ready then none
    else
      some
        { state := if s.state = DtrRunState.running then DtrRunState.aligned else s.state,
          cycle_counter :=
            (rollForwardFuel minP (dtrReqBase s) (rollForwardFuelFor minP (dtrReqPeriod s) 0)
              (dtrReqPeriod s, 0, s.align_request.aligned_cycle_counter)).2.2,
          timer_base_ticks := s.timer_base_ticks + (s.active_period_ticks : ℤ),
          active_period_ticks := s.shadow_period_ticks,
          shadow_period_ticks := s.shadow_period_ticks,
          period_ticks :=
            (rollForwardFuel minP (dtrReqBase s) (rollForwardFuelFor minP (dtrReqPeriod s) 0)
              (dtrReqPeriod s, 0, s.align_request.aligned_cycle_counter)).1,
          base_period_fp16 := dtrReqBase s,
          period_ticks_frac_acc :=
            (rollForwardFuel minP (dtrReqBase s) (rollForwardFuelFor minP (dtrReqPeriod s) 0)
              (dtrReqPeriod s, 0, s.align_request.aligned_cycle_counter)).2.1,
          align_request := { s.align_request with pending := false },
          align_feedback :=
            { ready := true,
              cycle_counter :=
                (rollForwardFuel minP (dtrReqBase s)
                  (rollForwardFuelFor minP (dtrReqPeriod s) 0)
                  (dtrReqPeriod s, 0, s.align_request.aligned_cycle_counter)).2.2,
              cycle_delta :=
                i32 ((rollForwardFuel minP (dtrReqBase s)
                  (rollForwardFuelFor minP (dtrReqPeriod s) 0)
                  (dtrReqPeriod s, 0, s.align_request.aligned_cycle_counter)).2.2 -
                  (s.cycle_counter + 1)),
              period_ticks :=
                i32 (rollForwardFuel minP (dtrReqBase s)
                  (rollForwardFuelFor minP (dtrReqPeriod s) 0)
                  (dtrReqPeriod s, 0, s.align_request.aligned_cycle_counter)).1,
              period_ticks_delta :=
                i32 ((rollForwardFuel minP (dtrReqBase s)
                  (rollForwardFuelFor minP (dtrReqPeriod s) 0)
                  (dtrReqPeriod s, 0, s.align_request.aligned_cycle_counter)).1 -
                  s.period_ticks) } }
  else
    some
      { s with
        cycle_counter := s.cycle_counter + 1,
        timer_base_ticks := s.timer_base_ticks + (s.active_period_ticks : ℤ),
        active_period_ticks := s.shadow_period_ticks,
        period_ticks := (ditherStep s.base_period_fp16 (0, s.period_ticks_frac_acc)).1,
        period_ticks_frac_acc :=
          (ditherStep s.base_period_fp16 (0, s.period_ticks_frac_acc)).2 }

/-- The full `dtr_tez_handler`: the spinlock section followed, outside
the lock, by the range check on `period_ticks` (failure aborts the
process, modelled by `none`) and the write to the hardware shadow
period register. -/
def DTR_tez_handler (minP : ℤ) (s : Dtr) : Option Dtr :=
  match DTR_tez_critical minP s with
  | none => none
  | some s1 =>
    if s1.period_ticks ≤ 0 ∨ 65535 < s1.period_ticks then none
    else some { s1 with shadow_period_ticks := s1.period_ticks.toNat }

/-- Model of `dtr_start_timer` / `s_enable_and_start_timer` (dtr.c lines
407–421 and 457–466): abort unless the state is NOT_STARTED; otherwise
zero `timer_base_ticks` and `cycle_counter` and enter RUNNING. -/
def dtr_start_timer_model (s : Dtr) : Option Dtr :=
  if s.state = DtrRunState.notStarted then
    some { s with timer_base_ticks := 0, cycle_counter := 0, state := DtrRunState.running }
  else none

/-- The `timer_base_ticks += offset` performed at the end of
`dtr_start_timer` after the offset measurement. -/
def dtr_add_start_offset (offset : ℤ) (s : Dtr) : Dtr :=
  { s with timer_base_ticks := s.timer_base_ticks + offset }

/-- The operations that mutate the DTR state. -/
inductive DtrOp
  | start
  | addStartOffset (offset : ℤ)
  | tez
deriving Repr, DecidableEq

def dtrStep (minP : ℤ) : DtrOp → Dtr → Option Dtr
  | DtrOp.start => dtr_start_timer_model
  | DtrOp.addStartOffset o => fun s => some (dtr_add_start_offset o s)
  | DtrOp.tez => DTR_tez_handler minP

/-- Run a sequence of DTR operations; `none` as soon as one aborts. -/
def dtrRun (minP : ℤ) : List DtrOp → Dtr → Option Dtr
  | [], s => some s
  | op :: ops, s =>
    match dtrStep minP op s with
    | none => none
    | some s1 => dtrRun minP ops s1

/-- Numeric rank of the DTR state machine:
NotStarted → Running → Aligned. -/
def dtrStateRank : DtrRunState → ℕ
  | DtrRunState.notStarted => 0
  | DtrRunState.running => 1
  | DtrRunState.aligned => 2

/-- Iterate the TEZ handler `n` times, accumulating the sum of the
`period_ticks` values produced (the values written to the hardware
shadow register). -/
def dtrTezRun (minP : ℤ) : ℕ → Dtr → Option (Dtr × ℤ)
  | 0, s => some (s, 0)
  | n + 1, s =>
    match DTR_tez_handler minP s with
    | none => none
    | some s1 =>
      match dtrTezRun minP n s1 with
      | none => none
      | some r => some (r.1, s1.period_ticks + r.2)

/-! ## MAC-clock / timer offset measurement (dtr.c lines 190–272) -/

/-- Model of `s_catch_mac_clock_transition`: given the sampled values of one
iteration (the timer read before the critical section, the
`timer_base_ticks` snapshot, the loop samples `timer_before`, `mac1`,
`mac2`, `timer_after` from the iteration in which the two MAC readings
differed, and the post samples), reject the sample when either counter
appears non-monotone, otherwise return
`(timer_abs_before, mac_at_transition_us, timer_abs_after)`. -/
def s_catch_mac_clock_transition_model (timer_base_pre mac_base : ℤ)
    (timer_pre mac_pre timer_before mac1 mac2 timer_after timer_post mac_post : ℤ) :
    Option (ℤ × ℤ × ℤ) :=
  if timer_before < timer_pre ∨ timer_after < timer_before ∨ timer_post < timer_after then
    none
  else if mac1 < mac_pre ∨ mac2 < mac1 ∨ mac_post < mac2 then
    none
  else
    some (timer_base_pre + timer_before, mac_base + mac2, timer_base_pre + timer_after)

/-- Model of `s_refine_mac_clock_timer_start_offset`: tighten the live
`[min, max]` interval with the bounds derived from one accepted sample. -/
def s_refine_mac_clock_timer_start_offset_model (min max : ℤ)
    (timer_abs_before mac_transition_us timer_abs_after : ℤ) : ℤ × ℤ :=
  (if mac_transition_us * TIMER_TICKS_PER_US - timer_abs_after > min then
     mac_transition_us * TIMER_TICKS_PER_US - timer_abs_after
   else min,
   if mac_transition_us * TIMER_TICKS_PER_US - timer_abs_before < max then
     mac_transition_us * TIMER_TICKS_PER_US - timer_abs_before
   else max)

/-! ## Statement abbreviations and concrete inputs used by the claims -/

/-- The DTR module state established by `dtr_init` (dtr.c lines
428–436): NOT_STARTED, `cycle_counter = −1` so the first TEZ increments
it to 0, zero elapsed ticks, nominal period in the shadow register and
in `base_period_fp16`, no pending request, no ready feedback. -/
def dtr_init_state : Dtr :=
  { state := DtrRunState.notStarted,
    cycle_counter := -1,
    timer_base_ticks := 0,
    active_period_ticks := 0,
    shadow_period_ticks := 20000,
    period_ticks := 20000,
    base_period_fp16 := 20000 * 65536,
    period_ticks_frac_acc := 0,
    align_request :=
      { pending := false, aligned_local_ticks := 0, aligned_cycle_counter := 0,
        aligned_base_period_fp16 := 0 },
    align_feedback :=
      { ready := false, cycle_counter := 0, cycle_delta := 0, period_ticks := 0,
        period_ticks_delta := 0 } }

/-- The state of the MAC clock unwrapper after `clock_init`
(`{last, 0, 0, 2^32, 0}`). -/
def mac_clock_unwrap_state (last : ℤ) : UnwrapState :=
  { last_val := last, offset := 0, wrap_count := 0, wrap_value := 2 ^ 32, wrap_value2 := 0 }

/-- A full sample ring holding 32 points on the exact line
`local = 2 · remote` (remote = 0..31). -/
def crm_c7_ring : CrmSamples :=
  { local_ps := [0, 2, 4, 6, 8, 10, 12, 14, 16, 18, 20, 22, 24, 26, 28, 30,
                 32, 34, 36, 38, 40, 42, 44, 46, 48, 50, 52, 54, 56, 58, 60, 62],
    remote_ps := [0, 1, 2, 3, 4, 5, 6, 7, 8, 9, 10, 11, 12, 13, 14, 15,
                  16, 17, 18, 19, 20, 21, 22, 23, 24, 25, 26, 27, 28, 29, 30, 31],
    count := 32, head := 0 }

/-- A full sample ring holding 32 points on the exact DECREASING line
`local = 1000000 − remote` (remote = 0, 1000, …, 31000): a perfect fit
(`r² = 1`, so the model is valid) whose slope factors are negative. -/
def crm_c6_ring : CrmSamples :=
  { local_ps := [1000000, 999000, 998000, 997000, 996000, 995000, 994000, 993000,
                 992000, 991000, 990000, 989000, 988000, 987000, 986000, 985000,
                 984000, 983000, 982000, 981000, 980000, 979000, 978000, 977000,
                 976000, 975000, 974000, 973000, 972000, 971000, 970000, 969000],
    remote_ps := [0, 1000, 2000, 3000, 4000, 5000, 6000, 7000,
                  8000, 9000, 10000, 11000, 12000, 13000, 14000, 15000,
                  16000, 17000, 18000, 19000, 20000, 21000, 22000, 23000,
                  24000, 25000, 26000, 27000, 28000, 29000, 30000, 31000],
    count := 32, head := 0 }

/-- Input of 32 FTM entries `(t1, t2, t3, t4)` with `t3 = t2` and `t4 = t1` (zero
round-trip time), yielding the two-cluster sample set
16 × (local 0, remote 0) and 16 × (local 31, remote 62) — a poor fit
(`r² = 960/961 < 0.999`) that is nevertheless non-degenerate. -/
def crm_c10_entries : List (ℤ × ℤ × ℤ × ℤ) :=
  List.replicate 16 (0, 0, 0, 0) ++ List.replicate 16 (62, 31, 31, 62)

/-- Input of 32 identical FTM entries: every derived sample is `(1000, 1000)`,
a degenerate input with `den = 0`. -/
def crm_c5_entries : List (ℤ × ℤ × ℤ × ℤ) :=
  List.replicate 32 (1000, 1000, 1000, 1000)

/-- The ring state after feeding `crm_c5_entries` into an empty ring. -/
def crm_c5_post_ring : CrmSamples :=
  { local_ps := List.replicate 32 1000 ++ List.replicate 96 0,
    remote_ps := List.replicate 32 1000 ++ List.replicate 96 0,
    count := 32, head := 0 }

/-- The ring state after feeding `crm_c10_entries` into an empty ring. -/
def crm_c10_post_ring : CrmSamples :=
  { local_ps := List.replicate 16 0 ++ List.replicate 16 31 ++ List.replicate 96 0,
    remote_ps := List.replicate 16 0 ++ List.replicate 16 62 ++ List.replicate 96 0,
    count := 32, head := 0 }

/-- A running DTR state with a pending alignment request whose target
`aligned_local_ticks = 0` lies at the tick the timer has just reached,
so the requested period is 0 and the roll-forward loop must run.  The
requested base period is the nominal `20000 · 65536`. -/
def dtr_c1_counterexample_state : Dtr :=
  { state := DtrRunState.running,
    cycle_counter := 5,
    timer_base_ticks := 0,
    active_period_ticks := 0,
    shadow_period_ticks := 20000,
    period_ticks := 20000,
    base_period_fp16 := 20000 * 65536,
    period_ticks_frac_acc := 0,
    align_request :=
      { pending := true, aligned_local_ticks := 0, aligned_cycle_counter := 100,
        aligned_base_period_fp16 := 20000 * 65536 },
    align_feedback :=
      { ready := false, cycle_counter := 0, cycle_delta := 0, period_ticks := 0,
        period_ticks_delta := 0 } }

/-- A running DTR state with a pending alignment request whose target
is a full nominal period ahead, so no roll-forward is needed. -/
def dtr_c1_witness_state : Dtr :=
  { state := DtrRunState.running,
    cycle_counter := 5,
    timer_base_ticks := 0,
    active_period_ticks := 0,
    shadow_period_ticks := 20000,
    period_ticks := 20000,
    base_period_fp16 := 20000 * 65536,
    period_ticks_frac_acc := 0,
    align_request :=
      { pending := true, aligned_local_ticks := 20000, aligned_cycle_counter := 7,
        aligned_base_period_fp16 := 20000 * 65536 },
    align_feedback :=
      { ready := false, cycle_counter := 0, cycle_delta := 0, period_ticks := 0,
        period_ticks_delta := 0 } }

/-- The DTR state after `start_timer` and one TEZ from `dtr_init_state`. -/
def dtr_c9_witness_state : Dtr :=
  { state := DtrRunState.running,
    cycle_counter := 1,
    timer_base_ticks := 0,
    active_period_ticks := 20000,
    shadow_period_ticks := 20000,
    period_ticks := 20000,
    base_period_fp16 := 20000 * 65536,
    period_ticks_frac_acc := 0,
    align_request :=
      { pending := false, aligned_local_ticks := 0, aligned_cycle_counter := 0,
        aligned_base_period_fp16 := 0 },
    align_feedback :=
      { ready := false, cycle_counter := 0, cycle_delta := 0, period_ticks := 0,
        period_ticks_delta := 0 } }

/-- A running, already-aligned DTR state with no pending request, a
dithered base period of `20000 + 7/65536` ticks and a zeroed fractional
accumulator. -/
def dtr_c2_witness_state : Dtr :=
  { state := DtrRunState.aligned,
    cycle_counter := 12,
    timer_base_ticks := 40000,
    active_period_ticks := 20000,
    shadow_period_ticks := 20000,
    period_ticks := 20000,
    base_period_fp16 := 65536 * 20000 + 7,
    period_ticks_frac_acc := 0,
    align_request :=
      { pending := false, aligned_local_ticks := 0, aligned_cycle_counter := 0,
        aligned_base_period_fp16 := 0 },
    align_feedback :=
      { ready := false, cycle_counter := 0, cycle_delta := 0, period_ticks := 0,
        period_ticks_delta := 0 } }

/-- Statement of claim C3 at the given inputs: one `clock_unwrap` call
behaves as specified (wrap registration, `last_val` update, return
value), and with `wrap_value = 2^48, wrap_value2 = W2` the input
sequence `(W2 − 1, 0)` returns `(W2 − 1, W2)` while `(W2 + 1, 0)`
returns `(W2 + 1, 2^48)`. -/
def C3_spec (raw : ℤ) (s : UnwrapState) (W2 : ℤ) : Prop :=
  ((s.last_val ≠ 0 ∧ raw < s.last_val →
      (clock_unwrap raw s).2.offset = s.offset +
        (if 0 < s.wrap_value2 ∧ s.last_val < s.wrap_value2 then s.wrap_value2
         else s.wrap_value) ∧
      (clock_unwrap raw s).2.wrap_count = s.wrap_count + 1) ∧
    (clock_unwrap raw s).2.last_val = raw ∧
    (clock_unwrap raw s).1 = raw + (clock_unwrap raw s).2.offset) ∧
  (clock_unwrap (W2 - 1) (unwrap_fresh_48 W2)).1 = W2 - 1 ∧
  (clock_unwrap 0 (clock_unwrap (W2 - 1) (unwrap_fresh_48 W2)).2).1 = W2 ∧
  (clock_unwrap (W2 + 1) (unwrap_fresh_48 W2)).1 = W2 + 1 ∧
  (clock_unwrap 0 (clock_unwrap (W2 + 1) (unwrap_fresh_48 W2)).2).1 = 2 ^ 48

/-! ## Helper lemmas -/

theorem ratTrunc_gt_sub_one (q : ℚ) : q - 1 < (ratTrunc q : ℚ) := by
  unfold ratTrunc
  split
  · linarith [Int.sub_one_lt_floor q]
  · linarith [Int.le_ceil q]

theorem ratTrunc_lt_add_one (q : ℚ) : (ratTrunc q : ℚ) < q + 1 := by
  unfold ratTrunc
  split
  · linarith [Int.floor_le q]
  · linarith [Int.ceil_lt_add_one q]

theorem ratTrunc_intCast (n : ℤ) : ratTrunc (n : ℚ) = n := by
  unfold ratTrunc
  split <;> simp

theorem clock_unwrap_wrap_value (v : ℤ) (s : UnwrapState) :
    (clock_unwrap v s).2.wrap_value = s.wrap_value ∧
    (clock_unwrap v s).2.wrap_value2 = s.wrap_value2 := by
  unfold clock_unwrap
  split <;> exact ⟨rfl, rfl⟩

theorem clock_unwrap_last_val (v : ℤ) (s : UnwrapState) :
    (clock_unwrap v s).2.last_val = v := by
  unfold clock_unwrap
  split <;> rfl

theorem clock_unwrap_fst (v : ℤ) (s : UnwrapState) :
    (clock_unwrap v s).1 = v + (clock_unwrap v s).2.offset := by
  unfold clock_unwrap
  split <;> rfl

theorem clock_unwrap_offset (v : ℤ) (s : UnwrapState) :
    (clock_unwrap v s).2.offset =
      if s.last_val ≠ 0 ∧ v < s.last_val then
        s.offset +
          (if 0 < s.wrap_value2 ∧ s.last_val < s.wrap_value2 then s.wrap_value2
           else s.wrap_value)
      else s.offset := by
  unfold clock_unwrap
  split <;> rfl

/-- Monotonicity of two successive unwrap outputs: provided the first
raw value is below `wrap_value` and the second is nonnegative, the
second output is at least the first. -/
theorem clock_unwrap_pair_mono (s : UnwrapState) (x y : ℤ)
    (hy : 0 ≤ y) (hx : x < s.wrap_value) :
    (clock_unwrap x s).1 ≤ (clock_unwrap y (clock_unwrap x s).2).1 := by
  have hlast := clock_unwrap_last_val x s
  have hwv := (clock_unwrap_wrap_value x s).1
  have hwv2 := (clock_unwrap_wrap_value x s).2
  rw [clock_unwrap_fst x s, clock_unwrap_fst y (clock_unwrap x s).2,
    clock_unwrap_offset y (clock_unwrap x s).2, hlast, hwv, hwv2]
  split_ifs <;> omega

theorem clock_unwrap_run_length (s : UnwrapState) (xs : List ℤ) :
    (clock_unwrap_run s xs).length = xs.length := by
  induction xs generalizing s with
  | nil => rfl
  | cons x rest ih => simpa [clock_unwrap_run] using ih (clock_unwrap x s).2

/-! ## Claims C3 and C4 — unwrapper -/

/-- C3 (amended): every `clock_unwrap` call registers a wrap exactly as
specified and returns `raw + offset`; the dual-wrap sequences return the
claimed values for every `W2 > 1`.  (The claim as frozen allows
`W2 = 1`, where the first input `W2 − 1 = 0` collides with the
`last_val == 0` sentinel, no wrap is registered, and the second call
returns `0` instead of `W2`; see `C3_counterexample`.) -/
theorem C3_unwrap_wrap_behavior (raw : ℤ) (s : UnwrapState) (W2 : ℤ)
    (hW2 : 1 < W2) : C3_spec raw s W2 := by
  unfold C3_spec
  refine ⟨⟨?_, ?_, ?_⟩, ?_, ?_, ?_, ?_⟩
  · intro hw
    unfold clock_unwrap
    rw [if_pos hw]
    exact ⟨rfl, rfl⟩
  · exact clock_unwrap_last_val raw s
  · unfold clock_unwrap
    split <;> rfl
  · unfold clock_unwrap unwrap_fresh_48
    split_ifs <;> simp_all
  · unfold clock_unwrap unwrap_fresh_48
    split_ifs <;> simp_all <;> omega
  · unfold clock_unwrap unwrap_fresh_48
    split_ifs <;> simp_all
  · unfold clock_unwrap unwrap_fresh_48
    split_ifs <;> simp_all <;> omega

/-- C3 counterexample: at `W2 = 1` the claimed dual-wrap sequence
`(W2 − 1, 0) = (0, 0)` returns `0` on its second call (the `last_val == 0`
sentinel suppresses wrap detection), not `W2 = 1` as the claim states. -/
theorem C3_counterexample :
    (0 : ℤ) < 1 ∧
    (clock_unwrap 0 (clock_unwrap ((1 : ℤ) - 1) (unwrap_fresh_48 1)).2).1 = 0 ∧
    (0 : ℤ) ≠ 1 := by decide

theorem C3_witness : (1 : ℤ) < 2 ∧ C3_spec 5 (unwrap_fresh_48 2) 2 :=
  ⟨by decide, C3_unwrap_wrap_behavior 5 (unwrap_fresh_48 2) 2 (by decide)⟩

/-- C4 (confirmed): for raw inputs in `[0, wrap_value)` — the range a
counter that is monotone modulo `wrap_value` produces — the outputs of
successive `clock_unwrap` calls on the same state are monotone
non-decreasing. -/
theorem C4_unwrap_monotone (s : UnwrapState) (xs : List ℤ)
    (h : ∀ x ∈ xs, 0 ≤ x ∧ x < s.wrap_value) :
    ∀ i : ℕ, i + 1 < (clock_unwrap_run s xs).length →
      (clock_unwrap_run s xs).getD i 0 ≤ (clock_unwrap_run s xs).getD (i + 1) 0 := by
  induction xs generalizing s with
  | nil => intro i hi; simp [clock_unwrap_run] at hi
  | cons x rest ih =>
    intro i hi
    cases rest with
    | nil => simp [clock_unwrap_run] at hi
    | cons y rest2 =>
      cases i with
      | zero =>
        have hx := h x (by simp)
        have hy := h y (by simp)
        simpa [clock_unwrap_run] using
          clock_unwrap_pair_mono s x y hy.1 hx.2
      | succ j =>
        have hrest : ∀ v ∈ y :: rest2, 0 ≤ v ∧ v < (clock_unwrap x s).2.wrap_value := by
          intro v hv
          rw [(clock_unwrap_wrap_value x s).1]
          exact h v (List.mem_cons_of_mem x hv)
        have := ih (clock_unwrap x s).2 hrest j
          (by simpa [clock_unwrap_run] using hi)
        simpa [clock_unwrap_run] using this

theorem C4_witness :
    (∀ x ∈ ([4294967286, 5, 10] : List ℤ),
        0 ≤ x ∧ x < (mac_clock_unwrap_state 100).wrap_value) ∧
    (∀ i : ℕ,
        i + 1 < (clock_unwrap_run (mac_clock_unwrap_state 100) [4294967286, 5, 10]).length →
        (clock_unwrap_run (mac_clock_unwrap_state 100) [4294967286, 5, 10]).getD i 0 ≤
          (clock_unwrap_run (mac_clock_unwrap_state 100) [4294967286, 5, 10]).getD (i + 1) 0) :=
  ⟨by decide, C4_unwrap_monotone (mac_clock_unwrap_state 100) [4294967286, 5, 10] (by decide)⟩

/-! ## Claim C8 — offset measurement bounds -/

/-- C8 (confirmed): whenever the six samples of one offset-measurement
iteration pass the monotonicity checks, the absolute timer values
satisfy `timer_abs_before ≤ timer_abs_after`, hence
`new_min = mac_ticks − timer_abs_after ≤ mac_ticks − timer_abs_before
= new_max` — so the `assert(new_min <= new_max)` cannot fire — and the
refinement step can only increase `min` and decrease `max`. -/
theorem C8_offset_measurement_bounds
    (timer_base_pre mac_base timer_pre mac_pre timer_before mac1 mac2
      timer_after timer_post mac_post tb mu ta min max : ℤ)
    (h : s_catch_mac_clock_transition_model timer_base_pre mac_base timer_pre mac_pre
      timer_before mac1 mac2 timer_after timer_post mac_post = some (tb, mu, ta)) :
    tb ≤ ta ∧
    mu * TIMER_TICKS_PER_US - ta ≤ mu * TIMER_TICKS_PER_US - tb ∧
    min ≤ (s_refine_mac_clock_timer_start_offset_model min max tb mu ta).1 ∧
    (s_refine_mac_clock_timer_start_offset_model min max tb mu ta).2 ≤ max := by
  unfold s_catch_mac_clock_transition_model at h
  split_ifs at h with h1 h2
  all_goals try exact Option.noConfusion h
  all_goals simp only [Option.some.injEq, Prod.mk.injEq] at h
  all_goals obtain ⟨htb, hmu, hta⟩ := h
  all_goals unfold s_refine_mac_clock_timer_start_offset_model
  all_goals simp only [TIMER_TICKS_PER_US, DTR_TIMER_RESOLUTION_HZ]
  all_goals split_ifs <;> omega

theorem C8_witness :
    (s_catch_mac_clock_transition_model 0 0 1 10 2 10 11 3 4 11 = some (2, 11, 3)) ∧
    ((2 : ℤ) ≤ 3 ∧
     (11 : ℤ) * TIMER_TICKS_PER_US - 3 ≤ 11 * TIMER_TICKS_PER_US - 2 ∧
     (0 : ℤ) ≤ (s_refine_mac_clock_timer_start_offset_model 0 1000000 2 11 3).1 ∧
     (s_refine_mac_clock_timer_start_offset_model 0 1000000 2 11 3).2 ≤ 1000000) :=
  ⟨by decide, C8_offset_measurement_bounds 0 0 1 10 2 10 11 3 4 11 2 11 3 0 1000000 (by decide)⟩

/-! ## Claim C9 — DTR state monotonicity -/

theorem DTR_tez_critical_state (minP : ℤ) (s s1 : Dtr)
    (h : DTR_tez_critical minP s = some s1) :
    s1.state =
      if s.align_request.pending = true ∧ s.state = DtrRunState.running then
        DtrRunState.aligned
      else s.state := by
  unfold DTR_tez_critical at h
  split_ifs at h with hp hterm hready hrun
  all_goals try exact Option.noConfusion h
  all_goals simp only [Option.some.injEq] at h
  all_goals subst h
  · simp [hp, hrun]
  · simp [hp, hrun]
  · simp [hp]

theorem dtrStateRank_le_two (st : DtrRunState) : dtrStateRank st ≤ 2 := by
  cases st <;> simp [dtrStateRank]

theorem dtrStep_rank_mono (minP : ℤ) (op : DtrOp) (s s1 : Dtr)
    (h : dtrStep minP op s = some s1) :
    dtrStateRank s.state ≤ dtrStateRank s1.state := by
  cases op with
  | start =>
    simp only [dtrStep] at h
    unfold dtr_start_timer_model at h
    split_ifs at h with hs
    all_goals try exact Option.noConfusion h
    simp only [Option.some.injEq] at h
    subst h
    simp [hs, dtrStateRank]
  | addStartOffset o =>
    simp only [dtrStep] at h
    unfold dtr_add_start_offset at h
    simp only [Option.some.injEq] at h
    subst h
    exact le_refl _
  | tez =>
    simp only [dtrStep] at h
    unfold DTR_tez_handler at h
    cases hc : DTR_tez_critical minP s with
    | none => rw [hc] at h; exact Option.noConfusion h
    | some s2 =>
      rw [hc] at h
      dsimp only at h
      split_ifs at h with hrange
      all_goals try exact Option.noConfusion h
      simp only [Option.some.injEq] at h
      subst h
      have hst := DTR_tez_critical_state minP s s2 hc
      show dtrStateRank s.state ≤ dtrStateRank s2.state
      rw [hst]
      split_ifs with hcond
      · exact dtrStateRank_le_two _
      · exact le_refl _

theorem dtrRun_rank_mono (minP : ℤ) (ops : List DtrOp) (s s1 : Dtr)
    (h : dtrRun minP ops s = some s1) :
    dtrStateRank s.state ≤ dtrStateRank s1.state := by
  induction ops generalizing s with
  | nil =>
    unfold dtrRun at h
    simp only [Option.some.injEq] at h
    subst h
    exact le_refl _
  | cons op rest ih =>
    unfold dtrRun at h
    cases hstep : dtrStep minP op s with
    | none => rw [hstep] at h; exact absurd h (by simp)
    | some s2 =>
      rw [hstep] at h
      exact le_trans (dtrStep_rank_mono minP op s s2 hstep) (ih s2 h)

/-- C9 (confirmed): the DTR state only moves forward through
NotStarted → Running → Aligned.  Part 1: every single operation
(`start_timer`, the measured-offset addition, a TEZ with or without a
pending request) is monotone in state rank.  Part 2: so is every
reachable sequence of operations.  Part 3: from Running, the TEZ
spinlock section reaches Aligned exactly when an alignment request is
pending.  Part 4: without a pending request the TEZ never changes the
state. -/
theorem C9_dtr_state_monotone (minP : ℤ) :
    (∀ op s s1, dtrStep minP op s = some s1 →
      dtrStateRank s.state ≤ dtrStateRank s1.state) ∧
    (∀ ops s s1, dtrRun minP ops s = some s1 →
      dtrStateRank s.state ≤ dtrStateRank s1.state) ∧
    (∀ s s1, s.state = DtrRunState.running → DTR_tez_critical minP s = some s1 →
      (s1.state = DtrRunState.aligned ↔ s.align_request.pending = true)) ∧
    (∀ s s1, s.align_request.pending = false → DTR_tez_critical minP s = some s1 →
      s1.state = s.state) := by
  refine ⟨dtrStep_rank_mono minP, dtrRun_rank_mono minP, ?_, ?_⟩
  · intro s s1 hrun hc
    have hst := DTR_tez_critical_state minP s s1 hc
    constructor
    · intro hal
      by_contra hp
      rw [hst] at hal
      rw [if_neg (by simp [hp])] at hal
      rw [hrun] at hal
      exact absurd hal (by decide)
    · intro hp
      rw [hst, if_pos ⟨hp, hrun⟩]
  · intro s s1 hp hc
    have hst := DTR_tez_critical_state minP s s1 hc
    rw [hst, if_neg (by simp [hp])]

theorem C9_witness :
    (dtrRun 3360 [DtrOp.start, DtrOp.tez] dtr_init_state = some dtr_c9_witness_state) ∧
    dtrStateRank dtr_init_state.state ≤ dtrStateRank dtr_c9_witness_state.state :=
  ⟨by decide,
   (C9_dtr_state_monotone 3360).2.1 [DtrOp.start, DtrOp.tez] dtr_init_state
     dtr_c9_witness_state (by decide)⟩

/-! ## Claim C1 — alignment apply -/

theorem ditherStep_conserve (base : ℕ) (pa : ℤ × ℤ) :
    65536 * (ditherStep base pa).1 + (ditherStep base pa).2 =
      65536 * pa.1 + pa.2 + base := by
  unfold ditherStep
  split_ifs <;> omega

theorem ditherStep_acc_bounds (base : ℕ) (pa : ℤ × ℤ)
    (h0 : 0 ≤ pa.2) (h1 : pa.2 < 65536) :
    0 ≤ (ditherStep base pa).2 ∧ (ditherStep base pa).2 < 65536 := by
  unfold ditherStep
  split_ifs <;> constructor <;> omega

/-- Characterisation of the roll-forward loop: with a positive period
increment and a sufficient iteration budget, the loop performs exactly
the minimal number `k` of dithered-period advances needed to reach
`minP`, incrementing the cycle counter once per advance. -/
theorem rollForwardFuel_spec (minP : ℤ) (base : ℕ) (hbase : 0 < base) :
    ∀ (fuel : ℕ) (p acc cyc : ℤ), 0 ≤ acc → acc < 65536 →
      (65536 * (minP - p) - acc).toNat < fuel →
      ∃ k : ℕ,
        rollForwardFuel minP base fuel (p, acc, cyc) =
          (((ditherStep base)^[k] (p, acc)).1, ((ditherStep base)^[k] (p, acc)).2,
            cyc + k) ∧
        minP ≤ ((ditherStep base)^[k] (p, acc)).1 ∧
        ∀ j : ℕ, j < k → ((ditherStep base)^[j] (p, acc)).1 < minP := by
  intro fuel
  induction fuel with
  | zero => intro p acc cyc h0 h1 hf; omega
  | succ n ih =>
    intro p acc cyc h0 h1 hf
    by_cases hp : p < minP
    · have hacc := ditherStep_acc_bounds base (p, acc) h0 h1
      have hcons := ditherStep_conserve base (p, acc)
      have hfn : (65536 * (minP - (ditherStep base (p, acc)).1) -
          (ditherStep base (p, acc)).2).toNat < n := by
        omega
      obtain ⟨k, hk, hge, hmin⟩ :=
        ih (ditherStep base (p, acc)).1 (ditherStep base (p, acc)).2 (cyc + 1)
          hacc.1 hacc.2 hfn
      refine ⟨k + 1, ?_, ?_, ?_⟩
      · rw [rollForwardFuel, if_pos hp]
        rw [Function.iterate_succ_apply]
        simp only [Prod.mk.eta] at hk ⊢
        rw [hk]
        simp only [Prod.mk.injEq, true_and]
        push_cast
        ring
      · rw [Function.iterate_succ_apply]
        simpa using hge
      · intro j hj
        cases j with
        | zero => simpa using hp
        | succ j =>
          rw [Function.iterate_succ_apply]
          simpa using hmin j (by omega)
    · refine ⟨0, ?_, by simpa using not_lt.mp hp, by omega⟩
      rw [rollForwardFuel, if_neg hp]
      simp

/-- C1 (amended): when the TEZ handler consumes a pending request with
`target_cycle = C*`, `target_local_ticks = L*` (and the feedback slot
empty, a converted base period that is nonzero whenever the roll-forward
loop must run), then after the spinlock section the cycle counter is
`C* + k` for the minimal `k` that brings `period_ticks` up to
`MIN_PERIOD_TICKS` by whole dithered periods, and
`timer_base_ticks + period_ticks = L* + S` where `S` is the total of the
`k` dithered periods added by the roll-forward — in particular
`timer_base_ticks + period_ticks = L*` exactly when `k = 0`.  (The claim
as frozen asserts `timer_base_ticks + period_ticks = L*`
unconditionally; that fails whenever the roll-forward runs, see
`C1_counterexample`.) -/
theorem C1_alignment_apply (minP : ℤ) (s : Dtr)
    (hpend : s.align_request.pending = true)
    (hready : s.align_feedback.ready = false)
    (hterm : ¬(dtrReqPeriod s < minP ∧ dtrReqBase s = 0)) :
    ∃ (k : ℕ) (s1 : Dtr),
      DTR_tez_critical minP s = some s1 ∧
      s1.cycle_counter = s.align_request.aligned_cycle_counter + k ∧
      s1.timer_base_ticks = s.timer_base_ticks + (s.active_period_ticks : ℤ) ∧
      s1.period_ticks = (ditherIter (dtrReqBase s) (dtrReqPeriod s) k).1 ∧
      minP ≤ s1.period_ticks ∧
      s1.timer_base_ticks + s1.period_ticks =
        s.align_request.aligned_local_ticks +
          ((ditherIter (dtrReqBase s) (dtrReqPeriod s) k).1 - dtrReqPeriod s) ∧
      (k = 0 → s1.timer_base_ticks + s1.period_ticks =
        s.align_request.aligned_local_ticks) ∧
      (∀ j : ℕ, j < k → (ditherIter (dtrReqBase s) (dtrReqPeriod s) j).1 < minP) := by
  have hcrit : DTR_tez_critical minP s =
      some
        { state := if s.state = DtrRunState.running then DtrRunState.aligned else s.state,
          cycle_counter :=
            (rollForwardFuel minP (dtrReqBase s) (rollForwardFuelFor minP (dtrReqPeriod s) 0)
              (dtrReqPeriod s, 0, s.align_request.aligned_cycle_counter)).2.2,
          timer_base_ticks := s.timer_base_ticks + (s.active_period_ticks : ℤ),
          active_period_ticks := s.shadow_period_ticks,
          shadow_period_ticks := s.shadow_period_ticks,
          period_ticks :=
            (rollForwardFuel minP (dtrReqBase s) (rollForwardFuelFor minP (dtrReqPeriod s) 0)
              (dtrReqPeriod s, 0, s.align_request.aligned_cycle_counter)).1,
          base_period_fp16 := dtrReqBase s,
          period_ticks_frac_acc :=
            (rollForwardFuel minP (dtrReqBase s) (rollForwardFuelFor minP (dtrReqPeriod s) 0)
              (dtrReqPeriod s, 0, s.align_request.aligned_cycle_counter)).2.1,
          align_request := { s.align_request with pending := false },
          align_feedback :=
            { ready := true,
              cycle_counter :=
                (rollForwardFuel minP (dtrReqBase s)
                  (rollForwardFuelFor minP (dtrReqPeriod s) 0)
                  (dtrReqPeriod s, 0, s.align_request.aligned_cycle_counter)).2.2,
              cycle_delta :=
                i32 ((rollForwardFuel minP (dtrReqBase s)
                  (rollForwardFuelFor minP (dtrReqPeriod s) 0)
                  (dtrReqPeriod s, 0, s.align_request.aligned_cycle_counter)).2.2 -
                  (s.cycle_counter + 1)),
              period_ticks :=
                i32 (rollForwardFuel minP (dtrReqBase s)
                  (rollForwardFuelFor minP (dtrReqPeriod s) 0)
                  (dtrReqPeriod s, 0, s.align_request.aligned_cycle_counter)).1,
              period_ticks_delta :=
                i32 ((rollForwardFuel minP (dtrReqBase s)
                  (rollForwardFuelFor minP (dtrReqPeriod s) 0)
                  (dtrReqPeriod s, 0, s.align_request.aligned_cycle_counter)).1 -
                  s.period_ticks) } } := by
    unfold DTR_tez_critical
    rw [if_pos hpend, if_neg hterm, if_neg (by simp [hready])]
  by_cases hb : 0 < dtrReqBase s
  · obtain ⟨k, hk, hge, hmin⟩ :=
      rollForwardFuel_spec minP (dtrReqBase s) hb
        (rollForwardFuelFor minP (dtrReqPeriod s) 0)
        (dtrReqPeriod s) 0 s.align_request.aligned_cycle_counter
        (le_refl 0) (by norm_num)
        (by unfold rollForwardFuelFor; omega)
    refine ⟨k, _, hcrit, ?_, rfl, ?_, ?_, ?_, ?_, ?_⟩
    · show (rollForwardFuel _ _ _ _).2.2 = _
      rw [hk]
    · show (rollForwardFuel _ _ _ _).1 = _
      rw [hk]; rfl
    · show minP ≤ (rollForwardFuel _ _ _ _).1
      rw [hk]; exact hge
    · show (s.timer_base_ticks + (s.active_period_ticks : ℤ)) +
          (rollForwardFuel _ _ _ _).1 = _
      rw [hk]
      unfold ditherIter dtrReqPeriod
      ring
    · intro hk0
      subst hk0
      show (s.timer_base_ticks + (s.active_period_ticks : ℤ)) +
          (rollForwardFuel _ _ _ _).1 = _
      rw [hk]
      simp only [Function.iterate_zero, id_eq]
      unfold dtrReqPeriod
      ring
    · exact hmin
  · have hp0 : ¬ dtrReqPeriod s < minP := fun hlt => hterm ⟨hlt, by omega⟩
    have hroll : rollForwardFuel minP (dtrReqBase s)
        (rollForwardFuelFor minP (dtrReqPeriod s) 0)
        (dtrReqPeriod s, 0, s.align_request.aligned_cycle_counter) =
        (dtrReqPeriod s, 0, s.align_request.aligned_cycle_counter) := by
      unfold rollForwardFuelFor
      rw [rollForwardFuel, if_neg hp0]
    refine ⟨0, _, hcrit, ?_, rfl, ?_, ?_, ?_, ?_, by omega⟩
    · show (rollForwardFuel _ _ _ _).2.2 = _
      rw [hroll]; simp
    · show (rollForwardFuel _ _ _ _).1 = _
      rw [hroll]
      simp [ditherIter]
    · show minP ≤ (rollForwardFuel _ _ _ _).1
      rw [hroll]
      exact not_lt.mp hp0
    · show (s.timer_base_ticks + (s.active_period_ticks : ℤ)) +
          (rollForwardFuel _ _ _ _).1 = _
      rw [hroll]
      simp only [ditherIter, Function.iterate_zero, id_eq]
      unfold dtrReqPeriod
      ring
    · intro _
      show (s.timer_base_ticks + (s.active_period_ticks : ℤ)) +
          (rollForwardFuel _ _ _ _).1 = _
      rw [hroll]
      unfold dtrReqPeriod
      ring

/-- C1 counterexample: a pending request with `target_local_ticks = 0`
while the timer base is already at 0 gives a requested period of 0;
with `MIN_PERIOD_TICKS = 3360` the roll-forward loop adds one nominal
period, after which `timer_base_ticks + period_ticks = 20000`, not the
claimed `target_local_ticks = 0` (the cycle counter also moves to
`C* + 1 = 101`). -/
theorem C1_counterexample :
    dtr_c1_counterexample_state.align_request.pending = true ∧
    dtr_c1_counterexample_state.align_request.aligned_local_ticks = 0 ∧
    (DTR_tez_critical 3360 dtr_c1_counterexample_state).map
      (fun s1 => s1.timer_base_ticks + s1.period_ticks) = some 20000 ∧
    (DTR_tez_critical 3360 dtr_c1_counterexample_state).map
      (fun s1 => s1.cycle_counter) = some 101 ∧
    (20000 : ℤ) ≠ 0 := by
  decide

theorem C1_witness :
    (dtr_c1_witness_state.align_request.pending = true ∧
     dtr_c1_witness_state.align_feedback.ready = false ∧
     ¬(dtrReqPeriod dtr_c1_witness_state < 3360 ∧ dtrReqBase dtr_c1_witness_state = 0)) ∧
    (∃ (k : ℕ) (s1 : Dtr),
      DTR_tez_critical 3360 dtr_c1_witness_state = some s1 ∧
      s1.cycle_counter =
        dtr_c1_witness_state.align_request.aligned_cycle_counter + k ∧
      s1.timer_base_ticks =
        dtr_c1_witness_state.timer_base_ticks +
          (dtr_c1_witness_state.active_period_ticks : ℤ) ∧
      s1.period_ticks =
        (ditherIter (dtrReqBase dtr_c1_witness_state)
          (dtrReqPeriod dtr_c1_witness_state) k).1 ∧
      (3360 : ℤ) ≤ s1.period_ticks ∧
      s1.timer_base_ticks + s1.period_ticks =
        dtr_c1_witness_state.align_request.aligned_local_ticks +
          ((ditherIter (dtrReqBase dtr_c1_witness_state)
            (dtrReqPeriod dtr_c1_witness_state) k).1 -
            dtrReqPeriod dtr_c1_witness_state) ∧
      (k = 0 → s1.timer_base_ticks + s1.period_ticks =
        dtr_c1_witness_state.align_request.aligned_local_ticks) ∧
      (∀ j : ℕ, j < k →
        (ditherIter (dtrReqBase dtr_c1_witness_state)
          (dtrReqPeriod dtr_c1_witness_state) j).1 < 3360)) :=
  ⟨⟨by decide, by decide, by decide⟩,
   C1_alignment_apply 3360 dtr_c1_witness_state (by decide) (by decide) (by decide)⟩

/-! ## Claim C2 — fractional-period dithering -/

/-- A TEZ with no pending request performs exactly one dithering step on
`(0, period_ticks_frac_acc)` and passes the hardware range check
whenever the base period has integer part in `[1, 65534]`. -/
theorem DTR_tez_handler_dither (minP : ℤ) (s : Dtr) (P f : ℕ)
    (h1 : s.align_request.pending = false)
    (h2 : s.base_period_fp16 = 65536 * P + f)
    (hf : f < 65536) (hP1 : 1 ≤ P) (hP2 : P ≤ 65534)
    (h3 : 0 ≤ s.period_ticks_frac_acc) (h4 : s.period_ticks_frac_acc < 65536) :
    ∃ s2 : Dtr, DTR_tez_handler minP s = some s2 ∧
      s2.align_request.pending = false ∧
      s2.base_period_fp16 = s.base_period_fp16 ∧
      s2.period_ticks = (ditherStep s.base_period_fp16 (0, s.period_ticks_frac_acc)).1 ∧
      s2.period_ticks_frac_acc =
        (ditherStep s.base_period_fp16 (0, s.period_ticks_frac_acc)).2 := by
  have hbounds : 1 ≤ (ditherStep s.base_period_fp16 (0, s.period_ticks_frac_acc)).1 ∧
      (ditherStep s.base_period_fp16 (0, s.period_ticks_frac_acc)).1 ≤ 65535 := by
    rw [h2]
    unfold ditherStep
    split_ifs <;> constructor <;> simp <;> omega
  unfold DTR_tez_handler DTR_tez_critical
  rw [if_neg (by simp [h1])]
  dsimp only
  rw [if_neg (by omega)]
  exact ⟨_, rfl, by simpa using h1, rfl, rfl, rfl⟩

/-- Conservation invariant of a run of non-alignment TEZ ticks: the sum
of the produced periods and the final accumulator represent, in 1/65536
tick units, exactly `N` base periods plus the starting accumulator. -/
theorem dtrTezRun_dither (minP : ℤ) (P f : ℕ)
    (hf : f < 65536) (hP1 : 1 ≤ P) (hP2 : P ≤ 65534) :
    ∀ (N : ℕ) (s : Dtr), s.align_request.pending = false →
      s.base_period_fp16 = 65536 * P + f →
      0 ≤ s.period_ticks_frac_acc → s.period_ticks_frac_acc < 65536 →
      ∃ (s1 : Dtr) (sum : ℤ),
        dtrTezRun minP N s = some (s1, sum) ∧
        s1.align_request.pending = false ∧
        s1.base_period_fp16 = 65536 * P + f ∧
        0 ≤ s1.period_ticks_frac_acc ∧ s1.period_ticks_frac_acc < 65536 ∧
        65536 * sum + s1.period_ticks_frac_acc =
          (N : ℤ) * (65536 * (P : ℤ) + (f : ℤ)) + s.period_ticks_frac_acc := by
  intro N
  induction N with
  | zero =>
    intro s h1 h2 h3 h4
    exact ⟨s, 0, rfl, h1, h2, h3, h4, by push_cast; ring⟩
  | succ n ih =>
    intro s h1 h2 h3 h4
    obtain ⟨s2, hstep, hp2, hb2, hper, haccf⟩ :=
      DTR_tez_handler_dither minP s P f h1 h2 hf hP1 hP2 h3 h4
    have hacc2 := ditherStep_acc_bounds s.base_period_fp16 (0, s.period_ticks_frac_acc) h3 h4
    obtain ⟨s1, sum, hrun, hq1, hq2, hq3, hq4, heq⟩ :=
      ih s2 hp2 (by rw [hb2, h2]) (by rw [haccf]; exact hacc2.1) (by rw [haccf]; exact hacc2.2)
    refine ⟨s1, s2.period_ticks + sum, ?_, hq1, hq2, hq3, hq4, ?_⟩
    · rw [dtrTezRun, hstep]
      dsimp only
      rw [hrun]
    · have hcons := ditherStep_conserve s.base_period_fp16 (0, s.period_ticks_frac_acc)
      have hbz : (s.base_period_fp16 : ℤ) = 65536 * (P : ℤ) + (f : ℤ) := by
        rw [h2]; push_cast; ring
      rw [hper]
      rw [haccf] at heq
      push_cast at heq hcons ⊢
      linear_combination heq + hcons + hbz

/-- C2 (confirmed): starting from a zero fractional accumulator, over
any `N` consecutive non-alignment TEZ ticks with
`base_period_fp16 = P·65536 + f` held constant (`1 ≤ P ≤ 65534`,
`0 ≤ f < 65536`), the sum of the produced `period_ticks` equals
`N·P + ⌊N·f/65536⌋` exactly — in particular for every `N ≥ 65536` — and
the fractional accumulator equals `(N·f) mod 65536`, hence stays in
`[0, 65536)` throughout the run. -/
theorem C2_dithering_long_run (minP : ℤ) (s : Dtr) (P f N : ℕ)
    (hpend : s.align_request.pending = false)
    (hbase : s.base_period_fp16 = 65536 * P + f)
    (hf : f < 65536) (hP1 : 1 ≤ P) (hP2 : P ≤ 65534)
    (hacc : s.period_ticks_frac_acc = 0) :
    ∃ s1 : Dtr,
      dtrTezRun minP N s = some (s1, ((N * P : ℕ) : ℤ) + (((N * f : ℕ) / 65536 : ℕ) : ℤ)) ∧
      s1.period_ticks_frac_acc = (((N * f : ℕ) % 65536 : ℕ) : ℤ) ∧
      0 ≤ s1.period_ticks_frac_acc ∧ s1.period_ticks_frac_acc < 65536 := by
  obtain ⟨s1, sum, hrun, _, _, ha0, ha1, heq⟩ :=
    dtrTezRun_dither minP P f hf hP1 hP2 N s hpend hbase
      (by rw [hacc]) (by rw [hacc]; norm_num)
  rw [hacc] at heq
  have heq2 : 65536 * sum + s1.period_ticks_frac_acc =
      65536 * ((N * P : ℕ) : ℤ) + ((N * f : ℕ) : ℤ) := by
    push_cast at heq ⊢
    linarith [heq]
  have hsum : sum = ((N * P : ℕ) : ℤ) + (((N * f : ℕ) / 65536 : ℕ) : ℤ) ∧
      s1.period_ticks_frac_acc = (((N * f : ℕ) % 65536 : ℕ) : ℤ) := by
    constructor <;> omega
  refine ⟨s1, ?_, hsum.2, ha0, ha1⟩
  rw [← hsum.1]
  exact hrun

theorem C2_witness :
    (dtr_c2_witness_state.align_request.pending = false ∧
     dtr_c2_witness_state.base_period_fp16 = 65536 * 20000 + 7 ∧
     (7 : ℕ) < 65536 ∧ (1 : ℕ) ≤ 20000 ∧ (20000 : ℕ) ≤ 65534 ∧
     dtr_c2_witness_state.period_ticks_frac_acc = 0) ∧
    (∃ s1 : Dtr,
      dtrTezRun 0 3 dtr_c2_witness_state =
        some (s1, ((3 * 20000 : ℕ) : ℤ) + (((3 * 7 : ℕ) / 65536 : ℕ) : ℤ)) ∧
      s1.period_ticks_frac_acc = (((3 * 7 : ℕ) % 65536 : ℕ) : ℤ) ∧
      0 ≤ s1.period_ticks_frac_acc ∧ s1.period_ticks_frac_acc < 65536) :=
  ⟨⟨by decide, by decide, by decide, by decide, by decide, by decide⟩,
   C2_dithering_long_run 0 dtr_c2_witness_state 20000 7 3
     (by decide) (by decide) (by decide) (by decide) (by decide) (by decide)⟩

/-! ## Claim C6 — DTC forward-in-time -/

theorem u64_of_lt (x : ℤ) (h0 : 0 ≤ x) (h1 : x < 2 ^ 64) : u64 x = x :=
  Int.emod_eq_of_lt h0 h1

theorem i64_of_lt (x : ℤ) (h0 : 0 ≤ x) (h1 : x < 2 ^ 63) : i64 x = x := by
  have h64 : x < 2 ^ 64 := by
    have : (2 : ℤ) ^ 63 < 2 ^ 64 := by norm_num
    omega
  unfold i64
  rw [u64_of_lt x h0 h64, if_pos h1]

theorem DTR_TIMER_PERIOD_TICKS_eq : DTR_TIMER_PERIOD_TICKS = 20000 := by decide

theorem DTR_COMPENSATION_TICKS_eq : DTR_NS_TO_TICKS DTR_COMPENSATION_NS = -8 := by decide

/-- C6 (amended): for a DTC update computed from slopes that are exact
mutual inverses (as every CRM fit produces over exact arithmetic) with a
positive effective slope that is not absurdly far from unity
(`0 < 1 + slope_rl_m1 ≤ 3000`), and a projected remote tick value in
`[0, 2^61]` (no unsigned wrap-around), the published request satisfies
`target_local_ticks > timer_base_ticks`.  (The claim as frozen holds for
every valid model; it fails for models fitted to a decreasing local-vs-
remote relation, where both slope factors are negative — see
`C6_counterexample`.) -/
theorem C6_dtc_forward_in_time (slope_lr slope_rl : ℚ) (refL refR timer_base : ℤ)
    (hrel : (1 + slope_lr) * (1 + slope_rl) = 1)
    (hu0 : 0 < 1 + slope_rl)
    (hu1 : 1 + slope_rl ≤ 3000)
    (hr0 : 0 ≤ dtc_local_to_remote slope_rl timer_base refL refR)
    (hr1 : dtc_local_to_remote slope_rl timer_base refL refR ≤ 2 ^ 61) :
    timer_base < (dtc_crm_updated_core slope_lr slope_rl refL refR timer_base).2.1 := by
  have hP := DTR_TIMER_PERIOD_TICKS_eq
  have hrbound : dtc_local_to_remote slope_rl timer_base refL refR ≤ 2305843009213693952 := by
    have h61 : (2 : ℤ) ^ 61 = 2305843009213693952 := by norm_num
    omega
  set A : ℤ := ratTrunc (((timer_base - refL : ℤ) : ℚ) * slope_rl) with hA
  set rem : ℤ := dtc_local_to_remote slope_rl timer_base refL refR with hremdef
  have hremx : rem = refR + ((timer_base - refL) + A) := rfl
  have h63 : (2 : ℤ) ^ 63 = 9223372036854775808 := by norm_num
  have h64 : (2 : ℤ) ^ 64 = 18446744073709551616 := by norm_num
  have hcyc : dtc_aligned_cycle rem = (rem + 10000) / 20000 + 2 := by
    unfold dtc_aligned_cycle
    rw [hP]
    norm_num
    rw [u64_of_lt _ (by omega) (by omega), i64_of_lt _ (by omega) (by omega)]
  have har : dtc_aligned_remote_ticks (dtc_aligned_cycle rem) =
      ((rem + 10000) / 20000 + 2) * 20000 := by
    rw [hcyc]
    unfold dtc_aligned_remote_ticks
    rw [hP]
    rw [u64_of_lt _ (by omega) (by omega), i64_of_lt _ (by omega) (by omega)]
  set ar : ℤ := ((rem + 10000) / 20000 + 2) * 20000 with harv
  have hg : 30000 ≤ ar - rem := by omega
  set B : ℤ := ratTrunc (((ar - refR : ℤ) : ℚ) * slope_lr) with hB
  have htgt : (dtc_crm_updated_core slope_lr slope_rl refL refR timer_base).2.1 =
      refL + ((ar - refR) + B) + (-8) := by
    show dtc_remote_to_local slope_lr
        (dtc_aligned_remote_ticks (dtc_aligned_cycle rem)) refL refR +
        DTR_NS_TO_TICKS DTR_COMPENSATION_NS = _
    rw [har, DTR_COMPENSATION_TICKS_eq]
    rfl
  rw [htgt]
  -- it remains to show 0 < (ar − rem) + A + B − 8, which we do over ℚ
  have hkey : (0 : ℤ) < (ar - rem) + A + B - 8 := by
    have hu : (0 : ℚ) < 1 + slope_rl := hu0
    have hune : (1 : ℚ) + slope_rl ≠ 0 := ne_of_gt hu
    have hlu : slope_lr * (1 + slope_rl) = 1 - (1 + slope_rl) := by
      linear_combination hrel
    have hA1 : ((timer_base - refL : ℤ) : ℚ) * slope_rl - 1 < (A : ℚ) :=
      ratTrunc_gt_sub_one _
    have hA2 : (A : ℚ) < ((timer_base - refL : ℤ) : ℚ) * slope_rl + 1 :=
      ratTrunc_lt_add_one _
    have hB1 : ((ar - refR : ℤ) : ℚ) * slope_lr - 1 < (B : ℚ) :=
      ratTrunc_gt_sub_one _
    have hdelta : ((ar - refR : ℤ) : ℚ) =
        ((ar - rem : ℤ) : ℚ) + ((timer_base - refL : ℤ) : ℚ) + (A : ℚ) := by
      have : (ar - refR : ℤ) = (ar - rem) + (timer_base - refL) + A := by
        omega
      rw [this]
      push_cast
      ring
    set gq : ℚ := ((ar - rem : ℤ) : ℚ) with hgq
    set Dq : ℚ := ((timer_base - refL : ℤ) : ℚ) with hDq
    have hgq30 : (30000 : ℚ) ≤ gq := by
      rw [hgq]
      exact_mod_cast hg
    have hX : (1 + slope_rl) * ((A : ℚ) + ((ar - refR : ℤ) : ℚ) * slope_lr + gq - 9) =
        (A : ℚ) - Dq * slope_rl + gq - 9 * (1 + slope_rl) := by
      rw [hdelta]
      linear_combination (gq + Dq + (A : ℚ)) * hlu
    have hRHS : 0 < (A : ℚ) - Dq * slope_rl + gq - 9 * (1 + slope_rl) := by
      have h1 : -1 < (A : ℚ) - Dq * slope_rl := by
        rw [hDq]
        linarith [hA1]
      linarith [hgq30, hu1]
    have h9 : 0 < (A : ℚ) + ((ar - refR : ℤ) : ℚ) * slope_lr + gq - 9 := by
      by_contra hle
      push_neg at hle
      have : (1 + slope_rl) * ((A : ℚ) + ((ar - refR : ℤ) : ℚ) * slope_lr + gq - 9) ≤ 0 :=
        mul_nonpos_of_nonneg_of_nonpos (le_of_lt hu) hle
      rw [hX] at this
      linarith [hRHS]
    have hfin : (0 : ℚ) < gq + (A : ℚ) + (B : ℚ) - 8 := by
      linarith [hB1, h9]
    have : (0 : ℚ) < (((ar - rem) + A + B - 8 : ℤ) : ℚ) := by
      push_cast
      rw [hgq] at hfin
      push_cast at hfin
      linarith [hfin]
    exact_mod_cast this
  omega

/-! ## Claims C5, C7, C10 — CRM -/

theorem perform_regression_success (r : CrmSamples) (m m2 : CrmModel)
    (h : perform_regression r m = (m2, true)) :
    ¬ r.count < MIN_REGRESSION_SAMPLES ∧ crm_den r ≠ 0 ∧ crm_num r ≠ 0 ∧
      m2 = crm_fit_model r := by
  unfold perform_regression at h
  split_ifs at h with h1 h2
  · exact absurd (congrArg Prod.snd h) (by simp)
  · exact absurd (congrArg Prod.snd h) (by simp)
  · push_neg at h2
    exact ⟨h1, h2.1, h2.2, (congrArg Prod.fst h).symm⟩

theorem perform_regression_publishes (r : CrmSamples) (m : CrmModel)
    (hc : ¬ r.count < MIN_REGRESSION_SAMPLES)
    (hden : crm_den r ≠ 0) (hnum : crm_num r ≠ 0) :
    perform_regression r m = (crm_fit_model r, true) := by
  unfold perform_regression
  rw [if_neg hc, if_neg (not_or.mpr ⟨hden, hnum⟩)]

/-- C7 (confirmed): every successful fit publishes slopes
`(num − den)/den` and `(den − num)/num` over the same `num ≠ 0` and
`den ≠ 0`, so `(1 + slope_lr_m1) · (1 + slope_rl_m1) = (num/den) ·
(den/num) = 1` exactly — in particular to within `1e-12`. -/
theorem C7_crm_symmetric_inverse (r : CrmSamples) (m m2 : CrmModel)
    (h : perform_regression r m = (m2, true)) :
    (1 + m2.slope_lr_m1) * (1 + m2.slope_rl_m1) = 1 ∧
    |(1 + m2.slope_lr_m1) * (1 + m2.slope_rl_m1) - 1| ≤ 1 / 1000000000000 := by
  obtain ⟨hc, hden, hnum, hm⟩ := perform_regression_success r m m2 h
  subst hm
  have hexact : (1 + (crm_fit_model r).slope_lr_m1) *
      (1 + (crm_fit_model r).slope_rl_m1) = 1 := by
    show (1 + crm_slope_lr_m1_of r) * (1 + crm_slope_rl_m1_of r) = 1
    unfold crm_slope_lr_m1_of crm_slope_rl_m1_of
    field_simp
  exact ⟨hexact, by rw [hexact]; norm_num⟩

theorem C7_witness :
    (perform_regression crm_c7_ring crm_init_model = (crm_fit_model crm_c7_ring, true)) ∧
    ((1 + (crm_fit_model crm_c7_ring).slope_lr_m1) *
        (1 + (crm_fit_model crm_c7_ring).slope_rl_m1) = 1 ∧
     |(1 + (crm_fit_model crm_c7_ring).slope_lr_m1) *
        (1 + (crm_fit_model crm_c7_ring).slope_rl_m1) - 1| ≤ 1 / 1000000000000) := by
  have hxs : crm_xs crm_c7_ring =
      [0, 1, 2, 3, 4, 5, 6, 7, 8, 9, 10, 11, 12, 13, 14, 15,
       16, 17, 18, 19, 20, 21, 22, 23, 24, 25, 26, 27, 28, 29, 30, 31] := by decide
  have hys : crm_ys crm_c7_ring =
      [0, 2, 4, 6, 8, 10, 12, 14, 16, 18, 20, 22, 24, 26, 28, 30,
       32, 34, 36, 38, 40, 42, 44, 46, 48, 50, 52, 54, 56, 58, 60, 62] := by decide
  have hrefx : crm_ref_x crm_c7_ring = 0 := by decide
  have hrefy : crm_ref_y crm_c7_ring = 0 := by decide
  have hmx : crm_mean_x crm_c7_ring = 31 / 2 := by
    unfold crm_mean_x
    rw [hxs, hrefx]
    norm_num [crm_c7_ring]
  have hmy : crm_mean_y crm_c7_ring = 31 := by
    unfold crm_mean_y
    rw [hys, hrefy]
    norm_num [crm_c7_ring]
  have hden : crm_den crm_c7_ring = 2728 := by
    unfold crm_den
    rw [hxs, hmx]
    norm_num
  have hnum : crm_num crm_c7_ring = 5456 := by
    unfold crm_num
    rw [hxs, hys, hmx, hmy]
    norm_num
  have hsucc : perform_regression crm_c7_ring crm_init_model =
      (crm_fit_model crm_c7_ring, true) :=
    perform_regression_publishes _ _ (by decide)
      (by rw [hden]; norm_num) (by rw [hnum]; norm_num)
  exact ⟨hsucc, C7_crm_symmetric_inverse crm_c7_ring crm_init_model _ hsucc⟩

/-- C5 (confirmed): when a fit is attempted with fewer than
`MIN_REGRESSION_SAMPLES` samples in the ring, or with `num = 0` or
`den = 0`, the report path leaves the published model untouched and
does not invoke the registered callback. -/
theorem C5_crm_skip (ring : CrmSamples) (m : CrmModel)
    (entries : List (ℤ × ℤ × ℤ × ℤ))
    (h : (crm_process_ftm_report ring m entries).1.count < MIN_REGRESSION_SAMPLES ∨
         crm_num (crm_process_ftm_report ring m entries).1 = 0 ∨
         crm_den (crm_process_ftm_report ring m entries).1 = 0) :
    (crm_process_ftm_report ring m entries).2.1 = m ∧
    (crm_process_ftm_report ring m entries).2.2 = false := by
  unfold crm_process_ftm_report at h ⊢
  split_ifs at h ⊢ with he
  · exact ⟨rfl, rfl⟩
  · dsimp only at h ⊢
    unfold perform_regression
    split_ifs with h1 h2
    · exact ⟨rfl, rfl⟩
    · exact ⟨rfl, rfl⟩
    · exfalso
      rcases h with h | h | h
      · exact h1 h
      · exact h2 (Or.inr h)
      · exact h2 (Or.inl h)

theorem C5_witness :
    ((crm_process_ftm_report crm_empty_samples crm_init_model crm_c5_entries).1.count <
        MIN_REGRESSION_SAMPLES ∨
     crm_num (crm_process_ftm_report crm_empty_samples crm_init_model crm_c5_entries).1 = 0 ∨
     crm_den (crm_process_ftm_report crm_empty_samples crm_init_model crm_c5_entries).1 = 0) ∧
    ((crm_process_ftm_report crm_empty_samples crm_init_model crm_c5_entries).2.1 =
        crm_init_model ∧
     (crm_process_ftm_report crm_empty_samples crm_init_model crm_c5_entries).2.2 = false) := by
  have hpost : (crm_process_ftm_report crm_empty_samples crm_init_model crm_c5_entries).1 =
      crm_c5_post_ring := by
    set_option maxRecDepth 4000 in decide
  have hxs5 : crm_xs crm_c5_post_ring = List.replicate 32 (1000 : ℤ) := by decide
  have hrefx5 : crm_ref_x crm_c5_post_ring = 1000 := by decide
  have hmx5 : crm_mean_x crm_c5_post_ring = 1000 := by
    unfold crm_mean_x
    rw [hxs5, hrefx5]
    norm_num [crm_c5_post_ring]
  have hden5 : crm_den crm_c5_post_ring = 0 := by
    simp only [crm_den, hxs5, hmx5, List.map_replicate, List.sum_replicate]
    have hz : ((1000 : ℤ) : ℚ) - 1000 = 0 := by norm_num
    rw [hz, mul_zero, smul_zero]
  have hOr : (crm_process_ftm_report crm_empty_samples crm_init_model crm_c5_entries).1.count <
      MIN_REGRESSION_SAMPLES ∨
      crm_num (crm_process_ftm_report crm_empty_samples crm_init_model crm_c5_entries).1 = 0 ∨
      crm_den (crm_process_ftm_report crm_empty_samples crm_init_model crm_c5_entries).1 = 0 :=
    Or.inr (Or.inr (by rw [hpost]; exact hden5))
  exact ⟨hOr, C5_crm_skip crm_empty_samples crm_init_model crm_c5_entries hOr⟩

/-- C10 (confirmed): when the regression computation succeeds
(enough samples, `num ≠ 0`, `den ≠ 0`) but `r² ≤ 0.999`, the model is
still overwritten with the new fit — slopes and reference point — with
`valid = false`, and the callback is still invoked: neither publication
nor callback invocation is gated on the validity threshold. -/
theorem C10_crm_low_r2_still_published (ring : CrmSamples) (m : CrmModel)
    (entries : List (ℤ × ℤ × ℤ × ℤ))
    (hne : entries ≠ [])
    (hc : ¬ (crm_process_ftm_report ring m entries).1.count < MIN_REGRESSION_SAMPLES)
    (hden : crm_den (crm_process_ftm_report ring m entries).1 ≠ 0)
    (hnum : crm_num (crm_process_ftm_report ring m entries).1 ≠ 0)
    (hr2 : crm_r_squared (crm_process_ftm_report ring m entries).1 ≤
      CRM_R_SQUARED_THRESHOLD) :
    (crm_process_ftm_report ring m entries).2.2 = true ∧
    (crm_process_ftm_report ring m entries).2.1 =
      crm_fit_model (crm_process_ftm_report ring m entries).1 ∧
    (crm_process_ftm_report ring m entries).2.1.valid = false ∧
    (crm_process_ftm_report ring m entries).2.1.slope_lr_m1 =
      crm_slope_lr_m1_of (crm_process_ftm_report ring m entries).1 ∧
    (crm_process_ftm_report ring m entries).2.1.slope_rl_m1 =
      crm_slope_rl_m1_of (crm_process_ftm_report ring m entries).1 ∧
    (crm_process_ftm_report ring m entries).2.1.local_ref_ps =
      crm_t_ref_local (crm_process_ftm_report ring m entries).1 ∧
    (crm_process_ftm_report ring m entries).2.1.remote_ref_ps =
      crm_t_ref_remote (crm_process_ftm_report ring m entries).1 := by
  have hlen : ¬ entries.length = 0 := by
    simpa using hne
  unfold crm_process_ftm_report at hc hden hnum hr2 ⊢
  rw [if_neg hlen] at hc hden hnum hr2 ⊢
  dsimp only at hc hden hnum hr2 ⊢
  rw [perform_regression_publishes _ m hc hden hnum]
  refine ⟨rfl, rfl, ?_, rfl, rfl, rfl, rfl⟩
  show decide (CRM_R_SQUARED_THRESHOLD < _) = false
  exact decide_eq_false (not_lt.mpr hr2)

theorem C10_witness :
    (crm_c10_entries ≠ [] ∧
     ¬ (crm_process_ftm_report crm_empty_samples crm_init_model crm_c10_entries).1.count <
        MIN_REGRESSION_SAMPLES ∧
     crm_den (crm_process_ftm_report crm_empty_samples crm_init_model crm_c10_entries).1 ≠ 0 ∧
     crm_num (crm_process_ftm_report crm_empty_samples crm_init_model crm_c10_entries).1 ≠ 0 ∧
     crm_r_squared (crm_process_ftm_report crm_empty_samples crm_init_model crm_c10_entries).1 ≤
        CRM_R_SQUARED_THRESHOLD) ∧
    ((crm_process_ftm_report crm_empty_samples crm_init_model crm_c10_entries).2.2 = true ∧
     (crm_process_ftm_report crm_empty_samples crm_init_model crm_c10_entries).2.1 =
       crm_fit_model (crm_process_ftm_report crm_empty_samples crm_init_model crm_c10_entries).1 ∧
     (crm_process_ftm_report crm_empty_samples crm_init_model crm_c10_entries).2.1.valid = false ∧
     (crm_process_ftm_report crm_empty_samples crm_init_model crm_c10_entries).2.1.slope_lr_m1 =
       crm_slope_lr_m1_of
         (crm_process_ftm_report crm_empty_samples crm_init_model crm_c10_entries).1 ∧
     (crm_process_ftm_report crm_empty_samples crm_init_model crm_c10_entries).2.1.slope_rl_m1 =
       crm_slope_rl_m1_of
         (crm_process_ftm_report crm_empty_samples crm_init_model crm_c10_entries).1 ∧
     (crm_process_ftm_report crm_empty_samples crm_init_model crm_c10_entries).2.1.local_ref_ps =
       crm_t_ref_local
         (crm_process_ftm_report crm_empty_samples crm_init_model crm_c10_entries).1 ∧
     (crm_process_ftm_report crm_empty_samples crm_init_model crm_c10_entries).2.1.remote_ref_ps =
       crm_t_ref_remote
         (crm_process_ftm_report crm_empty_samples crm_init_model crm_c10_entries).1) := by
  have hpost : (crm_process_ftm_report crm_empty_samples crm_init_model crm_c10_entries).1 =
      crm_c10_post_ring := by
    set_option maxRecDepth 4000 in decide
  have hxs : crm_xs crm_c10_post_ring =
      [0, 0, 0, 0, 0, 0, 0, 0, 0, 0, 0, 0, 0, 0, 0, 0,
       62, 62, 62, 62, 62, 62, 62, 62, 62, 62, 62, 62, 62, 62, 62, 62] := by decide
  have hys : crm_ys crm_c10_post_ring =
      [0, 0, 0, 0, 0, 0, 0, 0, 0, 0, 0, 0, 0, 0, 0, 0,
       31, 31, 31, 31, 31, 31, 31, 31, 31, 31, 31, 31, 31, 31, 31, 31] := by decide
  have hrefx : crm_ref_x crm_c10_post_ring = 0 := by decide
  have hrefy : crm_ref_y crm_c10_post_ring = 0 := by decide
  have hmx : crm_mean_x crm_c10_post_ring = 31 := by
    unfold crm_mean_x
    rw [hxs, hrefx]
    norm_num [crm_c10_post_ring]
  have hmy : crm_mean_y crm_c10_post_ring = 31 / 2 := by
    unfold crm_mean_y
    rw [hys, hrefy]
    norm_num [crm_c10_post_ring]
  have hden : crm_den crm_c10_post_ring = 30752 := by
    unfold crm_den
    rw [hxs, hmx]
    norm_num
  have hnum : crm_num crm_c10_post_ring = 15376 := by
    unfold crm_num
    rw [hxs, hys, hmx, hmy]
    norm_num
  have hlr : crm_slope_lr_m1_of crm_c10_post_ring = -(1 / 2) := by
    unfold crm_slope_lr_m1_of
    rw [hnum, hden]
    norm_num
  have htrl : crm_t_ref_local crm_c10_post_ring = 15 := by
    unfold crm_t_ref_local
    rw [hmy]
    norm_num [ratTrunc]
  have htrr : crm_t_ref_remote crm_c10_post_ring = 31 := by
    unfold crm_t_ref_remote
    rw [hmx]
    norm_num [ratTrunc]
  have hssres : crm_ss_res crm_c10_post_ring = 8 := by
    unfold crm_ss_res
    rw [hxs, hys, htrl, htrr, hlr]
    norm_num
  have hsstot : crm_ss_tot crm_c10_post_ring = 7688 := by
    unfold crm_ss_tot
    rw [hys, hmy]
    norm_num
  have hrsq : crm_r_squared crm_c10_post_ring = 960 / 961 := by
    unfold crm_r_squared
    rw [hssres, hsstot, if_pos (by norm_num)]
    norm_num
  have h1 : crm_c10_entries ≠ [] := by decide
  have h2 : ¬ (crm_process_ftm_report crm_empty_samples crm_init_model crm_c10_entries).1.count <
      MIN_REGRESSION_SAMPLES := by
    rw [hpost]; decide
  have h3 : crm_den (crm_process_ftm_report crm_empty_samples crm_init_model crm_c10_entries).1 ≠
      0 := by
    rw [hpost, hden]; norm_num
  have h4 : crm_num (crm_process_ftm_report crm_empty_samples crm_init_model crm_c10_entries).1 ≠
      0 := by
    rw [hpost, hnum]; norm_num
  have h5 : crm_r_squared
      (crm_process_ftm_report crm_empty_samples crm_init_model crm_c10_entries).1 ≤
      CRM_R_SQUARED_THRESHOLD := by
    rw [hpost, hrsq]
    unfold CRM_R_SQUARED_THRESHOLD
    norm_num
  exact ⟨⟨h1, h2, h3, h4, h5⟩,
    C10_crm_low_r2_still_published crm_empty_samples crm_init_model crm_c10_entries
      h1 h2 h3 h4 h5⟩

theorem ratTrunc_eval (q : ℚ) (n : ℤ) (h : q = (n : ℚ)) : ratTrunc q = n := by
  rw [h, ratTrunc_intCast]

/-- C6 counterexample: fitting 32 exact points of the DECREASING line
`local = 1000000 − remote` gives a perfect, valid model
(`r² = 1 > 0.999`) with `slope_lr_m1 = slope_rl_m1 = −2`.  Running the
DTC update on it with `timer_base_ticks = 39` publishes
`target_local_ticks = −39969`, which is NOT greater than
`timer_base_ticks` — the claim fails for valid models with negative
slope. -/
theorem C6_counterexample :
    (perform_regression crm_c6_ring crm_init_model).2 = true ∧
    (perform_regression crm_c6_ring crm_init_model).1.valid = true ∧
    ¬ ((39 : ℤ) <
      (dtc_crm_updated_compute (perform_regression crm_c6_ring crm_init_model).1
        39).2.1) := by
  have hxs : crm_xs crm_c6_ring =
      [0, 1000, 2000, 3000, 4000, 5000, 6000, 7000,
       8000, 9000, 10000, 11000, 12000, 13000, 14000, 15000,
       16000, 17000, 18000, 19000, 20000, 21000, 22000, 23000,
       24000, 25000, 26000, 27000, 28000, 29000, 30000, 31000] := by decide
  have hys : crm_ys crm_c6_ring =
      [1000000, 999000, 998000, 997000, 996000, 995000, 994000, 993000,
       992000, 991000, 990000, 989000, 988000, 987000, 986000, 985000,
       984000, 983000, 982000, 981000, 980000, 979000, 978000, 977000,
       976000, 975000, 974000, 973000, 972000, 971000, 970000, 969000] := by decide
  have hrefx : crm_ref_x crm_c6_ring = 0 := by decide
  have hrefy : crm_ref_y crm_c6_ring = 1000000 := by decide
  have hmx : crm_mean_x crm_c6_ring = 15500 := by
    unfold crm_mean_x
    rw [hxs, hrefx]
    norm_num [crm_c6_ring]
  have hmy : crm_mean_y crm_c6_ring = 984500 := by
    unfold crm_mean_y
    rw [hys, hrefy]
    norm_num [crm_c6_ring]
  have hden : crm_den crm_c6_ring = 2728000000 := by
    unfold crm_den
    rw [hxs, hmx]
    norm_num
  have hnum : crm_num crm_c6_ring = -2728000000 := by
    unfold crm_num
    rw [hxs, hys, hmx, hmy]
    norm_num
  have hlr : crm_slope_lr_m1_of crm_c6_ring = -2 := by
    unfold crm_slope_lr_m1_of
    rw [hnum, hden]
    norm_num
  have hrl : crm_slope_rl_m1_of crm_c6_ring = -2 := by
    unfold crm_slope_rl_m1_of
    rw [hnum, hden]
    norm_num
  have htrl : crm_t_ref_local crm_c6_ring = 984500 := by
    unfold crm_t_ref_local
    rw [hmy]
    norm_num [ratTrunc]
  have htrr : crm_t_ref_remote crm_c6_ring = 15500 := by
    unfold crm_t_ref_remote
    rw [hmx]
    norm_num [ratTrunc]
  have hssres : crm_ss_res crm_c6_ring = 0 := by
    unfold crm_ss_res
    rw [hxs, hys, htrl, htrr, hlr]
    norm_num
  have hsstot : crm_ss_tot crm_c6_ring = 2728000000 := by
    unfold crm_ss_tot
    rw [hys, hmy]
    norm_num
  have hrsq : crm_r_squared crm_c6_ring = 1 := by
    unfold crm_r_squared
    rw [hssres, hsstot, if_pos (by norm_num)]
    norm_num
  have hsucc : perform_regression crm_c6_ring crm_init_model =
      (crm_fit_model crm_c6_ring, true) :=
    perform_regression_publishes _ _ (by decide)
      (by rw [hden]; norm_num) (by rw [hnum]; norm_num)
  have hvalid : (crm_fit_model crm_c6_ring).valid = true := by
    show decide (CRM_R_SQUARED_THRESHOLD < crm_r_squared crm_c6_ring) = true
    exact decide_eq_true (by rw [hrsq]; unfold CRM_R_SQUARED_THRESHOLD; norm_num)
  have hp1 : dtc_ps_to_ticks 984500 = 39 := by decide
  have hp2 : dtc_ps_to_ticks 15500 = 0 := by decide
  have hrem : dtc_local_to_remote (-2 : ℚ) 39 39 0 = 0 := by
    unfold dtc_local_to_remote
    rw [ratTrunc_eval _ 0 (by norm_num)]
    norm_num
  have hcyc : dtc_aligned_cycle 0 = 2 := by decide
  have har : dtc_aligned_remote_ticks 2 = 40000 := by decide
  have hloc : dtc_remote_to_local (-2 : ℚ) 40000 39 0 = -39961 := by
    unfold dtc_remote_to_local
    rw [ratTrunc_eval _ (-80000) (by norm_num)]
    norm_num
  have htgt : (dtc_crm_updated_compute (crm_fit_model crm_c6_ring) 39).2.1 = -39969 := by
    show dtc_remote_to_local (crm_fit_model crm_c6_ring).slope_lr_m1
        (dtc_aligned_remote_ticks (dtc_aligned_cycle
          (dtc_local_to_remote (crm_fit_model crm_c6_ring).slope_rl_m1 39
            (dtc_ps_to_ticks (crm_fit_model crm_c6_ring).local_ref_ps)
            (dtc_ps_to_ticks (crm_fit_model crm_c6_ring).remote_ref_ps))))
        (dtc_ps_to_ticks (crm_fit_model crm_c6_ring).local_ref_ps)
        (dtc_ps_to_ticks (crm_fit_model crm_c6_ring).remote_ref_ps) +
        DTR_NS_TO_TICKS DTR_COMPENSATION_NS = -39969
    have hfl : (crm_fit_model crm_c6_ring).slope_lr_m1 = -2 := hlr
    have hfr : (crm_fit_model crm_c6_ring).slope_rl_m1 = -2 := hrl
    have hfL : (crm_fit_model crm_c6_ring).local_ref_ps = 984500 := htrl
    have hfR : (crm_fit_model crm_c6_ring).remote_ref_ps = 15500 := htrr
    rw [hfl, hfr, hfL, hfR, hp1, hp2, hrem, hcyc, har, hloc,
      DTR_COMPENSATION_TICKS_eq]
    norm_num
  refine ⟨by rw [hsucc], by rw [hsucc]; exact hvalid, ?_⟩
  rw [hsucc]
  show ¬ (39 : ℤ) < (dtc_crm_updated_compute (crm_fit_model crm_c6_ring) 39).2.1
  rw [htgt]
  norm_num

theorem C6_witness :
    ((1 + (0 : ℚ)) * (1 + (0 : ℚ)) = 1 ∧ (0 : ℚ) < 1 + 0 ∧ (1 : ℚ) + 0 ≤ 3000 ∧
     0 ≤ dtc_local_to_remote 0 0 0 0 ∧ dtc_local_to_remote 0 0 0 0 ≤ 2 ^ 61) ∧
    (0 : ℤ) < (dtc_crm_updated_core 0 0 0 0 0).2.1 := by
  have hrem0 : dtc_local_to_remote (0 : ℚ) 0 0 0 = 0 := by
    unfold dtc_local_to_remote
    rw [ratTrunc_eval _ 0 (by norm_num)]
    norm_num
  refine ⟨⟨by norm_num, by norm_num, by norm_num, by simp [hrem0], by simp [hrem0]⟩, ?_⟩
  exact C6_dtc_forward_in_time 0 0 0 0 0 (by norm_num) (by norm_num) (by norm_num)
    (by simp [hrem0]) (by simp [hrem0])
